import Mathlib

/-!
Verification of the block data model of `notion_data` (`src/notion_data/block.py`):
the tagged-union parsing and serialization of Notion "block" objects.

The JSON wire values are embedded as the inductive `J`; Python dicts become
ordered association lists (`List (String × J)`), since insertion order is
observable through `list(values)[0]` in `_BlockCommon.insert_type`.

Collaborator schemas that live in modules not present under `src/`
(`root.py`, `regex.py`, `rich_text.py`, `enums.py`, `file.py`, `identify.py`,
`parent.py`) are modelled from the spec where noted; each such definition
carries a doc comment starting with "Modelled from the spec:".
-/

namespace NotionData

/-- A JSON value as delivered to / produced by the pydantic models.
Objects are ordered association lists, mirroring Python dict insertion order. -/
inductive J where
  | null : J
  | bool (b : Bool) : J
  | num (n : Int) : J
  | str (s : String) : J
  | arr (elems : List J) : J
  | obj (entries : List (String × J)) : J
deriving Repr

/-- First-match lookup in an ordered mapping, like Python dict access. -/
def jget (entries : List (String × J)) (key : String) : Option J :=
  match entries with
  | [] => none
  | (k, v) :: rest => if k = key then some v else jget rest key

/-- Python `key in values` on a dict. -/
def hasKey (entries : List (String × J)) (key : String) : Bool :=
  (jget entries key).isSome

theorem jget_sizeOf {entries : List (String × J)} {key : String} {v : J}
    (h : jget entries key = some v) : sizeOf v < sizeOf entries := by
  induction entries with
  | nil => simp [jget] at h
  | cons kv rest ih =>
    obtain ⟨k, w⟩ := kv
    by_cases hk : k = key
    · simp [jget, hk] at h
      subst h
      simp
      omega
    · simp [jget, hk] at h
      have := ih h
      simp
      omega

theorem jget_append (a b : List (String × J)) (k : String) :
    jget (a ++ b) k = match jget a k with
      | some v => some v
      | none => jget b k := by
  induction a with
  | nil => simp [jget]
  | cons kv rest ih =>
    obtain ⟨k1, v1⟩ := kv
    by_cases hk : k1 = k
    · simp [jget, hk]
    · simp [jget, hk, ih]

theorem jget_none_append {a : List (String × J)} {k : String}
    (h : jget a k = none) (b : List (String × J)) :
    jget (a ++ b) k = jget b k := by
  rw [jget_append, h]

/-- Errors surfaced by conversion.  `validationError` stands for pydantic
`ValidationError` with the offending field; `indexError` is the uncaught
Python `IndexError` raised by `list(values)[0]` on an empty dict;
`typeError` is the uncaught Python `TypeError` when `insert_type` receives a
non-dict; `unionTagNotFound` is the discriminated-union error for a missing
`type` key at top level; `unknownVariant` is the union failure when no
member's `type` literal matches. -/
inductive Err where
  | validationError (field : String) : Err
  | unionTagNotFound : Err
  | invalidTag : Err
  | unknownVariant (tag : String) : Err
  | indexError : Err
  | typeError : Err
deriving DecidableEq, Repr

/-- A parsed timestamp: what Python's `datetime` holds for the values this
model can receive (string inputs).  `offset` is minutes east of UTC,
`none` for a naive datetime; `micro` is the microsecond component. -/
structure DTime where
  year : Nat
  month : Nat
  day : Nat
  hour : Nat
  minute : Nat
  second : Nat
  micro : Nat
  offset : Option Int
deriving DecidableEq, Repr

def digitVal (c : Char) : Option Nat :=
  if 48 ≤ c.toNat ∧ c.toNat ≤ 57 then some (c.toNat - 48) else none

def digitChar (n : Nat) : Char := Char.ofNat (48 + n)

def d2 (a b : Char) : Option Nat :=
  match digitVal a, digitVal b with
  | some x, some y => some (10 * x + y)
  | _, _ => none

def d4 (a b c d : Char) : Option Nat :=
  match digitVal a, digitVal b, digitVal c, digitVal d with
  | some x, some y, some z, some w => some (1000 * x + 100 * y + 10 * z + w)
  | _, _, _, _ => none

def pad2 (n : Nat) : List Char := [digitChar (n / 10), digitChar (n % 10)]

def pad4 (n : Nat) : List Char :=
  [digitChar (n / 1000), digitChar (n / 100 % 10), digitChar (n / 10 % 10), digitChar (n % 10)]

/-- Splits a leading run of decimal digits off a character list. -/
def splitDigits : List Char → List Nat × List Char
  | [] => ([], [])
  | c :: rest =>
    match digitVal c with
    | some d =>
      let (ds, r) := splitDigits rest
      (d :: ds, r)
    | none => ([], c :: rest)

/-- Microseconds from a fractional-second digit run (1 to 6 digits). -/
def fracToMicro (ds : List Nat) : Option Nat :=
  if ds.length = 0 ∨ 6 < ds.length then none
  else some (ds.foldl (fun a d => a * 10 + d) 0 * 10 ^ (6 - ds.length))

/-- Parses the timezone tail of an ISO-8601 timestamp: empty (naive),
`Z`, or `±HH:MM`.  Result is minutes east of UTC. -/
def parseOffset (cs : List Char) : Option (Option Int) :=
  match cs with
  | [] => some none
  | ['Z'] => some (some 0)
  | [sgn, h1, h2, ':', m1, m2] =>
    match d2 h1 h2, d2 m1 m2 with
    | some hh, some mm =>
      if hh ≤ 23 ∧ mm ≤ 59 then
        match sgn with
        | '+' => some (some (hh * 60 + mm : Int))
        | '-' => some (some (-(hh * 60 + mm : Int)))
        | _ => none
      else none
    | _, _ => none
  | _ => none

/-- Modelled from the spec: ISO-8601 datetime parsing is done by the
validation framework for the `datetime` fields of the Common Envelope
(spec section 4.5: "input parsing must accept the full range of ISO-8601
variants the API may emit").  Accepts
`YYYY-MM-DD[T ]HH:MM:SS[.frac][Z|±HH:MM]`. -/
def dtParse (s : String) : Option DTime :=
  match s.data with
  | y1 :: y2 :: y3 :: y4 :: '-' :: mo1 :: mo2 :: '-' :: dd1 :: dd2 :: sep ::
      hh1 :: hh2 :: ':' :: mi1 :: mi2 :: ':' :: ss1 :: ss2 :: rest =>
    if sep = 'T' ∨ sep = ' ' then
      match d4 y1 y2 y3 y4, d2 mo1 mo2, d2 dd1 dd2, d2 hh1 hh2, d2 mi1 mi2, d2 ss1 ss2 with
      | some y, some mo, some dd, some hh, some mi, some ss =>
        if 1 ≤ y ∧ 1 ≤ mo ∧ mo ≤ 12 ∧ 1 ≤ dd ∧ dd ≤ 31 ∧ hh ≤ 23 ∧ mi ≤ 59 ∧ ss ≤ 59 then
          match rest with
          | '.' :: fr =>
            match fracToMicro (splitDigits fr).1, parseOffset (splitDigits fr).2 with
            | some mic, some off => some ⟨y, mo, dd, hh, mi, ss, mic, off⟩
            | _, _ => none
          | _ =>
            match parseOffset rest with
            | some off => some ⟨y, mo, dd, hh, mi, ss, 0, off⟩
            | none => none
        else none
      | _, _, _, _, _, _ => none
    else none
  | _ => none

def offsetChars : Option Int → List Char
  | none => []
  | some o =>
    if o = 0 then ['Z']
    else (if 0 < o then '+' else '-') :: (pad2 (o.natAbs / 60) ++ ':' :: pad2 (o.natAbs % 60))

/-- Modelled from the spec: `format_datetime` lives in `root.py`, which is
not under `src/`.  Per spec section 4.5 it renders second precision
(fractional seconds dropped), with a literal `Z` for zero offset, the
explicit `±HH:MM` offset otherwise, and no suffix for a naive value. -/
def dtFormat (d : DTime) : String :=
  String.mk (pad4 d.year ++ '-' :: pad2 d.month ++ '-' :: pad2 d.day ++ 'T' ::
    pad2 d.hour ++ ':' :: pad2 d.minute ++ ':' :: pad2 d.second ++ offsetChars d.offset)

def offBound : Option Int → Bool
  | none => true
  | some o => decide (o.natAbs ≤ 1439)

/-- The range invariants `dtParse` guarantees (microseconds aside):
exactly what is needed for `dtFormat` output to reparse. -/
def dtWF (d : DTime) : Bool :=
  decide (1 ≤ d.year ∧ d.year ≤ 9999 ∧ 1 ≤ d.month ∧ d.month ≤ 12 ∧ 1 ≤ d.day ∧
    d.day ≤ 31 ∧ d.hour ≤ 23 ∧ d.minute ≤ 59 ∧ d.second ≤ 59) &&
  offBound d.offset

def isHexDigit (c : Char) : Bool :=
  c.isDigit || decide ('a' ≤ c ∧ c ≤ 'f') || decide ('A' ≤ c ∧ c ≤ 'F')

/-- Modelled from the spec: the `UUIDv4` pattern lives in `regex.py`, which
is not under `src/`.  Per the spec it accepts 32 hex characters, optionally
hyphenated in the standard 8-4-4-4-12 grouping. -/
def matchesUUID (s : String) : Bool :=
  (decide (s.data.length = 32) && s.data.all isHexDigit) ||
  (decide (s.data.length = 36) &&
    (List.range 36).all fun i =>
      if i = 8 ∨ i = 13 ∨ i = 18 ∨ i = 23 then decide (s.data.getD i ' ' = '-')
      else isHexDigit (s.data.getD i ' '))

/-- The Common Envelope (`_BlockCommon` fields other than `type` and the
payload).  `object` records whether the `Literal["block"]` marker was
present (a raw `null` and an absent key both parse to pydantic `None`).
`parent`, `created_by` and `last_edited_by` are collaborator schemas
(`_ParentUnion`, `NotionUser`); their modules are not under `src/`, so
their values are kept as the validated raw JSON objects. -/
structure Envelope where
  object : Bool
  id : Option String
  parent : Option J
  created_time : Option DTime
  last_edited_time : Option DTime
  created_by : Option J
  last_edited_by : Option J
  has_children : Bool
  archived : Bool
  in_trash : Bool
  request_id : Option String
deriving Repr

mutual
/-- The inner payload of each concrete variant of `_BlockCommon`, one
constructor per subclass, fields transcribed from `block.py`.
Collaborator-typed fields (`RichText`, `_FileUnion`, `NotionUser`,
`_ParentUnion`, `Url`, `Color`, `Language`) keep their validated raw value;
note `BulletedListItem` declares its payload as `RichText` (an array), not
as its unused `_BulletedData` inner class, and `LinkPreview` declares the
payload field `link_to`. -/
inductive Payload where
  | bookmark (url : String) (caption : J) : Payload
  | breadcrumb (data : List (String × J)) : Payload
  | bulleted_list_item (rich_text : J) : Payload
  | callout (rich_text : J) (icon : Option String) (color : String) : Payload
  | child_database (title : String) : Payload
  | child_page (title : String) : Payload
  | code (caption : J) (rich_text : J) (language : String) : Payload
  | column_list (data : List (String × J)) : Payload
  | column (data : List (String × J)) : Payload
  | heading_1 (rich_text : J) (color : String) (is_toggleable : Bool) : Payload
  | divider (data : List (String × J)) : Payload
  | embed (url : String) : Payload
  | equation (expression : String) : Payload
  | file (file : J) : Payload
  | heading_2 (rich_text : J) (color : String) (is_toggleable : Bool) : Payload
  | heading_3 (rich_text : J) (color : String) (is_toggleable : Bool) : Payload
  | image (file : J) : Payload
  | link_preview (link_to : String) : Payload
  | numbered_list_item (rich_text : J) (color : String)
      (children : Option (List Node)) : Payload
  | paragraph (rich_text : J) (color : String)
      (children : Option (List Node)) : Payload
  | quote (rich_text : J) (color : String)
      (children : Option (List Node)) : Payload
  | synced_block (synced_from : Option String)
      (children : Option (List Node)) : Payload
  | table (table_width : Int) (has_column_header : Bool) (has_row_header : Bool) : Payload
  | table_row (cells : List J) : Payload
  | to_do (rich_text : J) (checked : Bool) (color : String)
      (children : Option (List Node)) : Payload
  | toggle (rich_text : J) (color : String)
      (children : Option (List Node)) : Payload
  | video (file : J) : Payload

/-- A fully parsed block: Common Envelope plus exactly one variant payload. -/
inductive Node where
  | mk (env : Envelope) (payload : Payload) : Node
end

def Node.env : Node → Envelope
  | .mk e _ => e

def Node.payload : Node → Payload
  | .mk _ p => p

/-- The discriminator literal of each variant (`type: Literal[...]`). -/
def payloadTag : Payload → String
  | .bookmark .. => "bookmark"
  | .breadcrumb .. => "breadcrumb"
  | .bulleted_list_item .. => "bulleted_list_item"
  | .callout .. => "callout"
  | .child_database .. => "child_database"
  | .child_page .. => "child_page"
  | .code .. => "code"
  | .column_list .. => "column_list"
  | .column .. => "column"
  | .heading_1 .. => "heading_1"
  | .divider .. => "divider"
  | .embed .. => "embed"
  | .equation .. => "equation"
  | .file .. => "file"
  | .heading_2 .. => "heading_2"
  | .heading_3 .. => "heading_3"
  | .image .. => "image"
  | .link_preview .. => "link_preview"
  | .numbered_list_item .. => "numbered_list_item"
  | .paragraph .. => "paragraph"
  | .quote .. => "quote"
  | .synced_block .. => "synced_block"
  | .table .. => "table"
  | .table_row .. => "table_row"
  | .to_do .. => "to_do"
  | .toggle .. => "toggle"
  | .video .. => "video"

def nodeTag (n : Node) : String := payloadTag n.payload

/-- The registry: the `type` literals of `_BlockCommon.__subclasses__()`, in
declaration order, as collected by the `_BlockUnion` / `_ChildBlockUnion`
type aliases in `block.py`. -/
def registryTags : List String :=
  ["bookmark", "breadcrumb", "bulleted_list_item", "callout", "child_database",
   "child_page", "code", "column_list", "column", "heading_1", "divider",
   "embed", "equation", "file", "heading_2", "heading_3", "image",
   "link_preview", "numbered_list_item", "paragraph", "quote", "synced_block",
   "table", "table_row", "to_do", "toggle", "video"]

/-- The name of the payload attribute of each variant class: equal to the
tag except for `LinkPreview`, whose payload attribute is `link_to`. -/
def payloadKey : String → String
  | "bookmark" => "bookmark"
  | "breadcrumb" => "breadcrumb"
  | "bulleted_list_item" => "bulleted_list_item"
  | "callout" => "callout"
  | "child_database" => "child_database"
  | "child_page" => "child_page"
  | "code" => "code"
  | "column_list" => "column_list"
  | "column" => "column"
  | "heading_1" => "heading_1"
  | "divider" => "divider"
  | "embed" => "embed"
  | "equation" => "equation"
  | "file" => "file"
  | "heading_2" => "heading_2"
  | "heading_3" => "heading_3"
  | "image" => "image"
  | "link_preview" => "link_to"
  | "numbered_list_item" => "numbered_list_item"
  | "paragraph" => "paragraph"
  | "quote" => "quote"
  | "synced_block" => "synced_block"
  | "table" => "table"
  | "table_row" => "table_row"
  | "to_do" => "to_do"
  | "toggle" => "toggle"
  | "video" => "video"
  | t => t

/-- `_BlockCommon.insert_type`, the `mode="before"` model validator: if the
mapping has no `type` key, set `values["type"] = list(values)[0]`, i.e. the
FIRST key of the dict (appending the new key at the end, as Python dict
assignment does).  On an empty dict `list(values)[0]` raises `IndexError`.
The returned mapping is also the state of the caller's dict after the call,
since the assignment mutates `values` in place. -/
def insert_type (values : List (String × J)) : Except Err (List (String × J)) :=
  if hasKey values "type" then .ok values
  else
    match values with
    | [] => .error .indexError
    | (k, _) :: _ => .ok (values ++ [("type", J.str k)])

/-- The caller's dict after a call of `insert_type` on it (the validator
mutates its input in place; an exception leaves it unchanged). -/
def dictAfterInsertType (values : List (String × J)) : List (String × J) :=
  match insert_type values with
  | .ok values2 => values2
  | .error _ => values

/-- The discriminator the union resolution ends up acting on: the `type`
value when present (it must be a string literal), otherwise the first key
inserted by `insert_type`. -/
def effTag (kvs : List (String × J)) : Except Err String :=
  if hasKey kvs "type" then
    match jget kvs "type" with
    | some (.str t) => .ok t
    | _ => .error .invalidTag
  else
    match kvs with
    | [] => .error .indexError
    | (k, _) :: _ => .ok k

theorem effTag_via_insert_type (kvs : List (String × J)) :
    effTag kvs = (insert_type kvs).bind fun kvs2 =>
      match jget kvs2 "type" with
      | some (.str t) => .ok t
      | _ => .error .invalidTag := by
  by_cases h : hasKey kvs "type"
  · simp [effTag, insert_type, h, Except.bind]
  · match kvs with
    | [] => simp [effTag, insert_type, h, Except.bind]
    | (k, v) :: rest =>
      have hj : jget ((k, v) :: rest) "type" = none := by
        simp [hasKey] at h
        exact Option.eq_none_of_isNone (by simpa using h)
      have h2 : hasKey ((k, v) :: rest) "type" = false := by
        simpa using h
      simp only [effTag, insert_type, h2, Bool.false_eq_true, if_false, Except.bind]
      rw [jget_none_append hj]
      simp [jget]

def isArr : J → Bool
  | .arr _ => true
  | _ => false

def isObj : J → Bool
  | .obj _ => true
  | _ => false

/-- `object: Literal["block"] | None = None`. -/
def parseObjectField : Option J → Except Err Bool
  | none => .ok false
  | some .null => .ok false
  | some (.str s) => if s = "block" then .ok true else .error (.validationError "object")
  | some _ => .error (.validationError "object")

/-- `str | None` with `pattern=UUIDv4` (the `id` and `request_id` fields). -/
def parsePatternField (name : String) : Option J → Except Err (Option String)
  | none => .ok none
  | some .null => .ok none
  | some (.str s) =>
    if matchesUUID s then .ok (some s) else .error (.validationError name)
  | some _ => .error (.validationError name)

/-- Modelled from the spec: optional collaborator-schema fields
(`_ParentUnion | None`, `NotionUser | None`; `parent.py` and `identify.py`
are not under `src/`); the collaborator consumes a JSON object and its
validated value is kept as that raw object. -/
def parseObjField (name : String) : Option J → Except Err (Option J)
  | none => .ok none
  | some .null => .ok none
  | some (.obj kvs) => .ok (some (.obj kvs))
  | some _ => .error (.validationError name)

/-- `datetime | None` fields; string input parsed as ISO-8601. -/
def parseDtField (name : String) : Option J → Except Err (Option DTime)
  | none => .ok none
  | some .null => .ok none
  | some (.str s) =>
    match dtParse s with
    | some d => .ok (some d)
    | none => .error (.validationError name)
  | some _ => .error (.validationError name)

/-- `bool` field with a default (`has_children`, `archived`, `in_trash`,
`checked`, `is_toggleable`). -/
def parseBoolField (name : String) (dflt : Bool) : Option J → Except Err Bool
  | none => .ok dflt
  | some (.bool b) => .ok b
  | some _ => .error (.validationError name)

/-- A required `bool` field (`has_column_header`, `has_row_header`). -/
def parseBoolRequired (name : String) : Option J → Except Err Bool
  | some (.bool b) => .ok b
  | _ => .error (.validationError name)

/-- A required `str` field (`url`, `title`, `expression`, `language`). -/
def parseStrField (name : String) : Option J → Except Err String
  | some (.str s) => .ok s
  | _ => .error (.validationError name)

/-- A required `int` field (`table_width`). -/
def parseIntField (name : String) : Option J → Except Err Int
  | some (.num n) => .ok n
  | _ => .error (.validationError name)

/-- Modelled from the spec: a required `RichText` field (`rich_text.py` is
not under `src/`); the rich-text collaborator consumes a JSON array and its
validated value is kept as that raw array. -/
def parseRichTextField (name : String) : Option J → Except Err J
  | some (.arr xs) => .ok (.arr xs)
  | _ => .error (.validationError name)

/-- Modelled from the spec: `Color` enumeration field with default
`Color.DEFAULT` (`enums.py` is not under `src/`); the enumeration consumes
a string. -/
def parseColorField : Option J → Except Err String
  | none => .ok "default"
  | some (.str s) => .ok s
  | some _ => .error (.validationError "color")

/-- `icon: str | None = None` of `Callout._CalloutData`. -/
def parseOptStrField (name : String) : Option J → Except Err (Option String)
  | none => .ok none
  | some .null => .ok none
  | some (.str s) => .ok (some s)
  | some _ => .error (.validationError name)

/-- Modelled from the spec: a required `_FileUnion` field (`file.py` is not
under `src/`); the file collaborator consumes a JSON object. -/
def parseFileField (name : String) : Option J → Except Err J
  | some (.obj kvs) => .ok (.obj kvs)
  | _ => .error (.validationError name)

/-- A `dict = {}` payload (`breadcrumb`, `column_list`, `column`,
`divider`): any JSON object, defaulting to empty when absent. -/
def parseDictDefault (name : String) : Option J → Except Err (List (String × J))
  | none => .ok []
  | some (.obj kvs) => .ok kvs
  | some _ => .error (.validationError name)

/-- `SyncedBlock._SyncedBlockData.synced_from : _SyncedFrom | None` — a
required key whose value may be `null`; `_SyncedFrom` requires a `block_id`
string matching `UUIDv4`. -/
def parseSyncedFrom : Option J → Except Err (Option String)
  | none => .error (.validationError "synced_from")
  | some .null => .ok none
  | some (.obj skvs) =>
    match jget skvs "block_id" with
    | some (.str s) =>
      if matchesUUID s then .ok (some s) else .error (.validationError "block_id")
    | _ => .error (.validationError "block_id")
  | some _ => .error (.validationError "synced_from")

/-- `TableRow._TableRowData.cells : list[RichText]`. -/
def parseCellsField : Option J → Except Err (List J)
  | some (.arr xs) =>
    if xs.all isArr then .ok xs else .error (.validationError "cells")
  | _ => .error (.validationError "cells")

/-- The shared `_HeadingData` payload (`heading_1/2/3`). -/
def parseHeadingData (opj : Option J) : Except Err (J × String × Bool) :=
  match opj with
  | some (.obj pkvs) =>
    match parseRichTextField "rich_text" (jget pkvs "rich_text") with
    | .error e => .error e
    | .ok rt =>
      match parseColorField (jget pkvs "color") with
      | .error e => .error e
      | .ok c =>
        match parseBoolField "is_toggleable" false (jget pkvs "is_toggleable") with
        | .error e => .error e
        | .ok tg => .ok (rt, c, tg)
  | _ => .error (.validationError "heading")

/-- The Common Envelope field validation of `_BlockCommon`. -/
def parseEnvelope (kvs : List (String × J)) : Except Err Envelope := do
  let ob ← parseObjectField (jget kvs "object")
  let i ← parsePatternField "id" (jget kvs "id")
  let par ← parseObjField "parent" (jget kvs "parent")
  let ct ← parseDtField "created_time" (jget kvs "created_time")
  let lt ← parseDtField "last_edited_time" (jget kvs "last_edited_time")
  let cb ← parseObjField "created_by" (jget kvs "created_by")
  let lb ← parseObjField "last_edited_by" (jget kvs "last_edited_by")
  let hc ← parseBoolField "has_children" false (jget kvs "has_children")
  let ar ← parseBoolField "archived" false (jget kvs "archived")
  let it ← parseBoolField "in_trash" false (jget kvs "in_trash")
  let rq ← parsePatternField "request_id" (jget kvs "request_id")
  return ⟨ob, i, par, ct, lt, cb, lb, hc, ar, it, rq⟩

theorem list_sizeOf_pos {α : Type} [SizeOf α] (l : List α) : 0 < sizeOf l := by
  cases l <;> simp_arith

mutual
/-- Validation of one raw value as a `_ChildBlockUnion` member: the
`insert_type` validator supplies the discriminator (the `type` value when
present, the first key otherwise), then the unique member whose `type`
literal matches is validated — envelope fields and the variant payload.
Mirrors pydantic union resolution, where at most one member can succeed
because the inserted `type` must equal the member's literal.  A non-dict
input crashes inside `insert_type` (Python `TypeError`). -/
def parseChildNodeJ (j : J) : Except Err Node :=
  match j with
  | .obj kvs =>
    match effTag kvs with
    | .error e => .error e
    | .ok tag =>
      if registryTags.contains tag then
        match parseEnvelope kvs with
        | .error e => .error e
        | .ok env =>
          match hp : jget kvs (payloadKey tag) with
          | none =>
            match parsePayloadValue tag none with
            | .error e => .error e
            | .ok p => .ok (.mk env p)
          | some pj =>
            match parsePayloadValue tag (some pj) with
            | .error e => .error e
            | .ok p => .ok (.mk env p)
      else .error (.unknownVariant tag)
  | _ => .error .typeError
termination_by sizeOf j
decreasing_by
  all_goals simp_wf
  all_goals
    first
    | (have h1 := jget_sizeOf hp; simp at h1 ⊢; omega)
    | ((try simp); omega)
    | ((try simp); exact list_sizeOf_pos _)

/-- Validation of the payload attribute of the variant named by `tag`,
given the raw value found at its payload key (`none` when the key is
absent).  One case per registry entry, transcribed from the subclass
definitions in `block.py`. -/
def parsePayloadValue (tag : String) (opj : Option J) : Except Err Payload :=
  match tag with
  | "bookmark" =>
    match opj with
    | some (.obj pkvs) =>
      match parseStrField "url" (jget pkvs "url"),
            parseRichTextField "caption" (jget pkvs "caption") with
      | .ok u, .ok cap => .ok (.bookmark u cap)
      | .error e, _ => .error e
      | _, .error e => .error e
    | _ => .error (.validationError "bookmark")
  | "breadcrumb" =>
    match parseDictDefault "breadcrumb" opj with
    | .ok d => .ok (.breadcrumb d)
    | .error e => .error e
  | "bulleted_list_item" =>
    match opj with
    | some (.arr xs) => .ok (.bulleted_list_item (.arr xs))
    | _ => .error (.validationError "bulleted_list_item")
  | "callout" =>
    match opj with
    | some (.obj pkvs) =>
      match parseRichTextField "rich_text" (jget pkvs "rich_text") with
      | .error e => .error e
      | .ok rt =>
        match parseOptStrField "icon" (jget pkvs "icon") with
        | .error e => .error e
        | .ok ic =>
          match parseColorField (jget pkvs "color") with
          | .error e => .error e
          | .ok c => .ok (.callout rt ic c)
    | _ => .error (.validationError "callout")
  | "child_database" =>
    match opj with
    | some (.obj pkvs) =>
      match parseStrField "title" (jget pkvs "title") with
      | .ok t => .ok (.child_database t)
      | .error e => .error e
    | _ => .error (.validationError "child_database")
  | "child_page" =>
    match opj with
    | some (.obj pkvs) =>
      match parseStrField "title" (jget pkvs "title") with
      | .ok t => .ok (.child_page t)
      | .error e => .error e
    | _ => .error (.validationError "child_page")
  | "code" =>
    match opj with
    | some (.obj pkvs) =>
      match parseRichTextField "caption" (jget pkvs "caption") with
      | .error e => .error e
      | .ok cap =>
        match parseRichTextField "rich_text" (jget pkvs "rich_text") with
        | .error e => .error e
        | .ok rt =>
          match parseStrField "language" (jget pkvs "language") with
          | .error e => .error e
          | .ok lang => .ok (.code cap rt lang)
    | _ => .error (.validationError "code")
  | "column_list" =>
    match parseDictDefault "column_list" opj with
    | .ok d => .ok (.column_list d)
    | .error e => .error e
  | "column" =>
    match parseDictDefault "column" opj with
    | .ok d => .ok (.column d)
    | .error e => .error e
  | "heading_1" =>
    match parseHeadingData opj with
    | .ok (rt, c, tg) => .ok (.heading_1 rt c tg)
    | .error e => .error e
  | "divider" =>
    match parseDictDefault "divider" opj with
    | .ok d => .ok (.divider d)
    | .error e => .error e
  | "embed" =>
    match opj with
    | some (.str s) => .ok (.embed s)
    | _ => .error (.validationError "embed")
  | "equation" =>
    match opj with
    | some (.obj pkvs) =>
      match parseStrField "expression" (jget pkvs "expression") with
      | .ok ex => .ok (.equation ex)
      | .error e => .error e
    | _ => .error (.validationError "equation")
  | "file" =>
    match parseFileField "file" opj with
    | .ok f => .ok (.file f)
    | .error e => .error e
  | "heading_2" =>
    match parseHeadingData opj with
    | .ok (rt, c, tg) => .ok (.heading_2 rt c tg)
    | .error e => .error e
  | "heading_3" =>
    match parseHeadingData opj with
    | .ok (rt, c, tg) => .ok (.heading_3 rt c tg)
    | .error e => .error e
  | "image" =>
    match opj with
    | some (.obj pkvs) =>
      match parseFileField "file" (jget pkvs "file") with
      | .ok f => .ok (.image f)
      | .error e => .error e
    | _ => .error (.validationError "image")
  | "link_preview" =>
    match opj with
    | some (.str s) => .ok (.link_preview s)
    | _ => .error (.validationError "link_preview")
  | "numbered_list_item" =>
    match opj with
    | some (.obj pkvs) =>
      match parseTextChildren pkvs with
      | .ok (rt, c, ch) => .ok (.numbered_list_item rt c ch)
      | .error e => .error e
    | _ => .error (.validationError "numbered_list_item")
  | "paragraph" =>
    match opj with
    | some (.obj pkvs) =>
      match parseTextChildren pkvs with
      | .ok (rt, c, ch) => .ok (.paragraph rt c ch)
      | .error e => .error e
    | _ => .error (.validationError "paragraph")
  | "quote" =>
    match opj with
    | some (.obj pkvs) =>
      match parseTextChildren pkvs with
      | .ok (rt, c, ch) => .ok (.quote rt c ch)
      | .error e => .error e
    | _ => .error (.validationError "quote")
  | "synced_block" =>
    match opj with
    | some (.obj pkvs) =>
      match parseSyncedFrom (jget pkvs "synced_from") with
      | .error e => .error e
      | .ok sf =>
        match parseChildrenInPkvs pkvs with
        | .ok ch => .ok (.synced_block sf ch)
        | .error e => .error e
    | _ => .error (.validationError "synced_block")
  | "table" =>
    match opj with
    | some (.obj pkvs) =>
      match parseIntField "table_width" (jget pkvs "table_width") with
      | .error e => .error e
      | .ok w =>
        match parseBoolRequired "has_column_header" (jget pkvs "has_column_header") with
        | .error e => .error e
        | .ok hch =>
          match parseBoolRequired "has_row_header" (jget pkvs "has_row_header") with
          | .error e => .error e
          | .ok hrh => .ok (.table w hch hrh)
    | _ => .error (.validationError "table")
  | "table_row" =>
    match opj with
    | some (.obj pkvs) =>
      match parseCellsField (jget pkvs "cells") with
      | .ok cs => .ok (.table_row cs)
      | .error e => .error e
    | _ => .error (.validationError "table_row")
  | "to_do" =>
    match opj with
    | some (.obj pkvs) =>
      match parseBoolField "checked" false (jget pkvs "checked") with
      | .error e => .error e
      | .ok chk =>
        match parseTextChildren pkvs with
        | .ok (rt, c, ch) => .ok (.to_do rt chk c ch)
        | .error e => .error e
    | _ => .error (.validationError "to_do")
  | "toggle" =>
    match opj with
    | some (.obj pkvs) =>
      match parseTextChildren pkvs with
      | .ok (rt, c, ch) => .ok (.toggle rt c ch)
      | .error e => .error e
    | _ => .error (.validationError "toggle")
  | "video" =>
    match opj with
    | some (.obj pkvs) =>
      match parseFileField "file" (jget pkvs "file") with
      | .ok f => .ok (.video f)
      | .error e => .error e
    | _ => .error (.validationError "video")
  | t => .error (.unknownVariant t)
termination_by sizeOf opj
decreasing_by
  all_goals simp_wf
  all_goals ((try simp); omega)

/-- The shared `rich_text`/`color`/`children` payload record of
`Paragraph`, `Quote`, `Toggle` and `NumberedListItem` (and, with `checked`,
`Todo`). -/
def parseTextChildren (pkvs : List (String × J)) :
    Except Err (J × String × Option (List Node)) :=
  match parseRichTextField "rich_text" (jget pkvs "rich_text") with
  | .error e => .error e
  | .ok rt =>
    match parseColorField (jget pkvs "color") with
    | .error e => .error e
    | .ok c =>
      match hc : jget pkvs "children" with
      | none => .ok (rt, c, none)
      | some .null => .ok (rt, c, none)
      | some (.arr js) =>
        match parseChildList js with
        | .ok ns => .ok (rt, c, some ns)
        | .error e => .error e
      | some _ => .error (.validationError "children")
termination_by sizeOf pkvs
decreasing_by
  all_goals simp_wf
  all_goals (have h1 := jget_sizeOf hc; simp at h1 ⊢; omega)

/-- The `children: list[_ChildBlockUnion] | None = None` field of a payload
record (used by `SyncedBlock`). -/
def parseChildrenInPkvs (pkvs : List (String × J)) :
    Except Err (Option (List Node)) :=
  match hc : jget pkvs "children" with
  | none => .ok none
  | some .null => .ok none
  | some (.arr js) =>
    match parseChildList js with
    | .ok ns => .ok (some ns)
    | .error e => .error e
  | some _ => .error (.validationError "children")
termination_by sizeOf pkvs
decreasing_by
  all_goals simp_wf
  all_goals (have h1 := jget_sizeOf hc; simp at h1 ⊢; omega)

/-- Elementwise validation of a `children` array, in order. -/
def parseChildList (js : List J) : Except Err (List Node) :=
  match js with
  | [] => .ok []
  | j :: rest =>
    match parseChildNodeJ j with
    | .error e => .error e
    | .ok n =>
      match parseChildList rest with
      | .error e => .error e
      | .ok ns => .ok (n :: ns)
termination_by sizeOf js
decreasing_by
  all_goals simp_wf
  all_goals ((try simp); omega)
end

/-- `Block = TypeAdapter(_BlockUnion)`: the top-level, tag-discriminated
union.  The discriminator is applied before any model validator runs, so a
mapping without an explicit `type` key fails with the union-tag error even
though `insert_type` could have supplied one (the source comments this
quirk).  With the tag present, validation proceeds exactly as for a child
block. -/
def parseBlock (j : J) : Except Err Node :=
  match j with
  | .obj kvs =>
    if hasKey kvs "type" then parseChildNodeJ j
    else .error .unionTagNotFound
  | _ => .error (.validationError "block")

/-- One optional entry of a serialized mapping. -/
def optEntry (k : String) : Option J → List (String × J)
  | none => []
  | some v => [(k, v)]

/-- Modelled from the spec: serialization of the Common Envelope.  The dump
configuration lives in `Root` (`root.py`, not under `src/`); per spec
section 6, fields that were null/absent are omitted, and the timestamp
fields pass through `format_datetime` (the `field_serializer` in
`_BlockCommon`).  Fields appear in declaration order. -/
def serializeEnvelope (e : Envelope) : List (String × J) :=
  optEntry "object" (if e.object then some (J.str "block") else none) ++
  optEntry "id" (e.id.map J.str) ++
  optEntry "parent" e.parent ++
  optEntry "created_time" (e.created_time.map fun d => J.str (dtFormat d)) ++
  optEntry "last_edited_time" (e.last_edited_time.map fun d => J.str (dtFormat d)) ++
  optEntry "created_by" e.created_by ++
  optEntry "last_edited_by" e.last_edited_by ++
  [("has_children", J.bool e.has_children), ("archived", J.bool e.archived),
   ("in_trash", J.bool e.in_trash)] ++
  optEntry "request_id" (e.request_id.map J.str)

def serializeSyncedFrom : Option String → List (String × J)
  | none => []
  | some s => [("synced_from", J.obj [("block_id", J.str s)])]

mutual
/-- Serialization of a node: the envelope fields, the `type` literal, and
the payload under its attribute name (`payloadKey`). -/
def serializeNode (n : Node) : J :=
  match n with
  | .mk e p =>
    .obj (serializeEnvelope e ++
      [("type", J.str (payloadTag p)), (payloadKey (payloadTag p), serializePayloadJ p)])

/-- Serialization of a variant payload, fields in declaration order;
optional-`None` fields are omitted, fields with non-`None` defaults are
emitted. -/
def serializePayloadJ (p : Payload) : J :=
  match p with
  | .bookmark u cap => .obj [("url", .str u), ("caption", cap)]
  | .breadcrumb d => .obj d
  | .bulleted_list_item rt => rt
  | .callout rt ic c =>
    .obj ([("rich_text", rt)] ++ optEntry "icon" (ic.map J.str) ++ [("color", .str c)])
  | .child_database t => .obj [("title", .str t)]
  | .child_page t => .obj [("title", .str t)]
  | .code cap rt lang => .obj [("caption", cap), ("rich_text", rt), ("language", .str lang)]
  | .column_list d => .obj d
  | .column d => .obj d
  | .heading_1 rt c tg =>
    .obj [("rich_text", rt), ("color", .str c), ("is_toggleable", .bool tg)]
  | .divider d => .obj d
  | .embed u => .str u
  | .equation ex => .obj [("expression", .str ex)]
  | .file f => f
  | .heading_2 rt c tg =>
    .obj [("rich_text", rt), ("color", .str c), ("is_toggleable", .bool tg)]
  | .heading_3 rt c tg =>
    .obj [("rich_text", rt), ("color", .str c), ("is_toggleable", .bool tg)]
  | .image f => .obj [("file", f)]
  | .link_preview u => .str u
  | .numbered_list_item rt c ch =>
    .obj ([("rich_text", rt), ("color", .str c)] ++ serializeChildrenEntry ch)
  | .paragraph rt c ch =>
    .obj ([("rich_text", rt), ("color", .str c)] ++ serializeChildrenEntry ch)
  | .quote rt c ch =>
    .obj ([("rich_text", rt), ("color", .str c)] ++ serializeChildrenEntry ch)
  | .synced_block sf ch => .obj (serializeSyncedFrom sf ++ serializeChildrenEntry ch)
  | .table w hch hrh =>
    .obj [("table_width", .num w), ("has_column_header", .bool hch),
      ("has_row_header", .bool hrh)]
  | .table_row cells => .obj [("cells", .arr cells)]
  | .to_do rt chk c ch =>
    .obj ([("rich_text", rt), ("checked", .bool chk), ("color", .str c)] ++
      serializeChildrenEntry ch)
  | .toggle rt c ch =>
    .obj ([("rich_text", rt), ("color", .str c)] ++ serializeChildrenEntry ch)
  | .video f => .obj [("file", f)]

def serializeChildrenEntry : Option (List Node) → List (String × J)
  | none => []
  | some ns => [("children", .arr (serializeNodeList ns))]

def serializeNodeList : List Node → List J
  | [] => []
  | n :: rest => serializeNode n :: serializeNodeList rest
end

def optUUID : Option String → Bool
  | none => true
  | some s => matchesUUID s

def optIsObj : Option J → Bool
  | none => true
  | some v => isObj v

def optDtWF : Option DTime → Bool
  | none => true
  | some d => dtWF d

/-- The invariants parsing establishes on an envelope. -/
def envWF (e : Envelope) : Bool :=
  optUUID e.id && optUUID e.request_id && optIsObj e.parent &&
  optIsObj e.created_by && optIsObj e.last_edited_by &&
  optDtWF e.created_time && optDtWF e.last_edited_time

mutual
/-- The invariants parsing establishes on a node. -/
def nodeWF : Node → Bool
  | .mk e p => envWF e && payloadWF p

def payloadWF : Payload → Bool
  | .bookmark _ cap => isArr cap
  | .breadcrumb _ => true
  | .bulleted_list_item rt => isArr rt
  | .callout rt _ _ => isArr rt
  | .child_database _ => true
  | .child_page _ => true
  | .code cap rt _ => isArr cap && isArr rt
  | .column_list _ => true
  | .column _ => true
  | .heading_1 rt _ _ => isArr rt
  | .divider _ => true
  | .embed _ => true
  | .equation _ => true
  | .file f => isObj f
  | .heading_2 rt _ _ => isArr rt
  | .heading_3 rt _ _ => isArr rt
  | .image f => isObj f
  | .link_preview _ => true
  | .numbered_list_item rt _ ch => isArr rt && childrenWF ch
  | .paragraph rt _ ch => isArr rt && childrenWF ch
  | .quote rt _ ch => isArr rt && childrenWF ch
  | .synced_block sf ch => optUUID sf && childrenWF ch
  | .table _ _ _ => true
  | .table_row cells => cells.all isArr
  | .to_do rt _ _ ch => isArr rt && childrenWF ch
  | .toggle rt _ ch => isArr rt && childrenWF ch
  | .video f => isObj f

def childrenWF : Option (List Node) → Bool
  | none => true
  | some ns => nodeListWF ns

def nodeListWF : List Node → Bool
  | [] => true
  | n :: rest => nodeWF n && nodeListWF rest
end

def dtNoFrac : Option DTime → Bool
  | none => true
  | some d => decide (d.micro = 0)

mutual
/-- The inputs that survive a serialization round trip: timestamps carry no
fractional-second part (serialization truncates to the second) and no
`synced_block` has a null `synced_from` (serialization omits the `None`
value of this required key). -/
def nodeSafe : Node → Bool
  | .mk e p => dtNoFrac e.created_time && dtNoFrac e.last_edited_time && payloadSafe p

def payloadSafe : Payload → Bool
  | .synced_block sf ch => sf.isSome && childrenSafe ch
  | .numbered_list_item _ _ ch => childrenSafe ch
  | .paragraph _ _ ch => childrenSafe ch
  | .quote _ _ ch => childrenSafe ch
  | .to_do _ _ _ ch => childrenSafe ch
  | .toggle _ _ ch => childrenSafe ch
  | _ => true

def childrenSafe : Option (List Node) → Bool
  | none => true
  | some ns => nodeListSafe ns

def nodeListSafe : List Node → Bool
  | [] => true
  | n :: rest => nodeSafe n && nodeListSafe rest
end

theorem jget_optEntry_ne {k k' : String} (h : ¬ k' = k) (v : Option J)
    (rest : List (String × J)) :
    jget (optEntry k' v ++ rest) k = jget rest k := by
  cases v <;> simp [optEntry, jget, h]

theorem jget_optEntry_eq (k : String) (v : J) (rest : List (String × J)) :
    jget (optEntry k (some v) ++ rest) k = some v := by
  simp [optEntry, jget]

theorem jget_optEntry_none (k : String) (rest : List (String × J)) :
    jget (optEntry k none ++ rest) k = jget rest k := by
  simp [optEntry]

theorem digitVal_digitChar {n : Nat} (h : n < 10) :
    digitVal (digitChar n) = some n := by
  interval_cases n <;> decide

theorem d2_pad2 {n : Nat} (h : n < 100) :
    d2 (digitChar (n / 10)) (digitChar (n % 10)) = some n := by
  have h1 : n / 10 < 10 := by omega
  have h2 : n % 10 < 10 := Nat.mod_lt _ (by norm_num)
  simp [d2, digitVal_digitChar h1, digitVal_digitChar h2]
  omega

theorem d4_pad4 {n : Nat} (h : n < 10000) :
    d4 (digitChar (n / 1000)) (digitChar (n / 100 % 10)) (digitChar (n / 10 % 10))
      (digitChar (n % 10)) = some n := by
  have h1 : n / 1000 < 10 := by omega
  have h2 : n / 100 % 10 < 10 := Nat.mod_lt _ (by norm_num)
  have h3 : n / 10 % 10 < 10 := Nat.mod_lt _ (by norm_num)
  have h4 : n % 10 < 10 := Nat.mod_lt _ (by norm_num)
  simp [d4, digitVal_digitChar h1, digitVal_digitChar h2, digitVal_digitChar h3,
    digitVal_digitChar h4]
  omega

/-- `dtFormat` output reparses to the very value when the microseconds are
zero (they are dropped on output) and the ranges are those `dtParse`
guarantees. -/
theorem dtParse_dtFormat {d : DTime} (hwf : dtWF d = true) (hm : d.micro = 0) :
    dtParse (dtFormat d) = some d := by
  obtain ⟨y, mo, dd, hh, mi, ss, mic, off⟩ := d
  simp only [dtWF, Bool.and_eq_true, decide_eq_true_eq] at hwf
  obtain ⟨⟨hy1, hy2, hmo1, hmo2, hdd1, hdd2, hhh, hmi, hss⟩, hoff⟩ := hwf
  simp only at hm
  subst hm
  simp only [dtFormat, pad4, pad2, List.cons_append, List.nil_append, dtParse]
  simp only [d4_pad4 (by omega : y < 10000), d2_pad2 (by omega : mo < 100),
    d2_pad2 (by omega : dd < 100), d2_pad2 (by omega : hh < 100),
    d2_pad2 (by omega : mi < 100), d2_pad2 (by omega : ss < 100)]
  rw [if_pos (Or.inl trivial : True ∨ 'T' = ' ')]
  rw [if_pos (show 1 ≤ y ∧ 1 ≤ mo ∧ mo ≤ 12 ∧ 1 ≤ dd ∧ dd ≤ 31 ∧ hh ≤ 23 ∧
    mi ≤ 59 ∧ ss ≤ 59 by omega)]
  match off with
  | none => simp [offsetChars, parseOffset]
  | some o =>
    have habs : o.natAbs ≤ 1439 := by simpa [offBound] using hoff
    by_cases ho : o = 0
    · subst ho
      simp [offsetChars, parseOffset]
    · have h60 : o.natAbs / 60 < 100 := by omega
      have h60b : o.natAbs % 60 < 100 := by omega
      by_cases hpos : 0 < o
      · simp [offsetChars, ho, hpos, parseOffset, pad2, d2_pad2 h60, d2_pad2 h60b,
          if_pos (show o.natAbs / 60 ≤ 23 ∧ o.natAbs % 60 ≤ 59 by omega)]
        simp only [Int.abs_eq_natAbs]
        omega
      · simp [offsetChars, ho, hpos, parseOffset, pad2, d2_pad2 h60, d2_pad2 h60b,
          if_pos (show o.natAbs / 60 ≤ 23 ∧ o.natAbs % 60 ≤ 59 by omega)]
        simp only [Int.abs_eq_natAbs]
        omega


theorem digitVal_lt {c : Char} {n : Nat} (h : digitVal c = some n) : n < 10 := by
  unfold digitVal at h
  split at h
  · rename_i hc
    cases h
    omega
  · cases h

theorem d2_lt {a b : Char} {n : Nat} (h : d2 a b = some n) : n < 100 := by
  unfold d2 at h
  split at h
  · rename_i x y ha hb
    cases h
    have h1 := digitVal_lt ha
    have h2 := digitVal_lt hb
    omega
  · cases h

theorem d4_lt {a b c e : Char} {n : Nat} (h : d4 a b c e = some n) : n < 10000 := by
  unfold d4 at h
  split at h
  · rename_i x y z w ha hb hc he
    cases h
    have h1 := digitVal_lt ha
    have h2 := digitVal_lt hb
    have h3 := digitVal_lt hc
    have h4 := digitVal_lt he
    omega
  · cases h

theorem parseOffset_wf {cs : List Char} {off : Option Int}
    (h : parseOffset cs = some off) : offBound off = true := by
  unfold parseOffset at h
  split at h
  · cases h; rfl
  · cases h; rfl
  · rename_i sgn c1 c2 m1 m2
    rcases hda : d2 c1 c2 with _ | hh <;> rw [hda] at h
    · cases h
    · rcases hdb : d2 m1 m2 with _ | mm <;> rw [hdb] at h
      · cases h
      · dsimp only at h
        by_cases hcond : hh ≤ 23 ∧ mm ≤ 59
        · rw [if_pos hcond] at h
          split at h
          · cases h
            simp only [offBound, decide_eq_true_eq, Int.abs_eq_natAbs]
            omega
          · cases h
            simp only [offBound, decide_eq_true_eq, Int.abs_eq_natAbs]
            omega
          · cases h
        · rw [if_neg hcond] at h
          cases h
  · cases h


theorem dtParse_wf {s : String} {d : DTime} (h : dtParse s = some d) :
    dtWF d = true := by
  unfold dtParse at h
  split at h
  · rename_i y1 y2 y3 y4 mo1 mo2 dd1 dd2 sep hh1 hh2 mi1 mi2 ss1 ss2 rest heq
    split at h
    · rcases h4 : d4 y1 y2 y3 y4 with _ | y <;> rw [h4] at h
      · cases h
      · rcases hmo : d2 mo1 mo2 with _ | mo <;> rw [hmo] at h
        · dsimp only at h; cases h
        · rcases hdd : d2 dd1 dd2 with _ | dd <;> rw [hdd] at h
          · dsimp only at h; cases h
          · rcases hhh : d2 hh1 hh2 with _ | hh <;> rw [hhh] at h
            · dsimp only at h; cases h
            · rcases hmi : d2 mi1 mi2 with _ | mi <;> rw [hmi] at h
              · dsimp only at h; cases h
              · rcases hss : d2 ss1 ss2 with _ | ss <;> rw [hss] at h
                · dsimp only at h; cases h
                · dsimp only at h
                  by_cases hr : 1 ≤ y ∧ 1 ≤ mo ∧ mo ≤ 12 ∧ 1 ≤ dd ∧ dd ≤ 31 ∧ hh ≤ 23 ∧ mi ≤ 59 ∧ ss ≤ 59
                  · rw [if_pos hr] at h
                    split at h
                    · rename_i fr
                      rcases hf : fracToMicro (splitDigits fr).1 with _ | mic <;> rw [hf] at h
                      · cases h
                      · rcases hp : parseOffset (splitDigits fr).2 with _ | off <;> rw [hp] at h
                        · dsimp only at h; cases h
                        · dsimp only at h
                          cases h
                          simp only [dtWF, Bool.and_eq_true, decide_eq_true_eq]
                          refine ⟨?_, parseOffset_wf hp⟩
                          have := d4_lt h4
                          omega
                    · rcases hp : parseOffset rest with _ | off <;> rw [hp] at h
                      · cases h
                      · cases h
                        simp only [dtWF, Bool.and_eq_true, decide_eq_true_eq]
                        refine ⟨?_, parseOffset_wf hp⟩
                        have := d4_lt h4
                        omega
                  · rw [if_neg hr] at h
                    cases h
    · cases h
  · cases h


def envKeys : List String :=
  ["object", "id", "parent", "created_time", "last_edited_time", "created_by",
   "last_edited_by", "has_children", "archived", "in_trash", "request_id"]

theorem bind_ok_except {α β : Type} (a : α) (f : α → Except Err β) :
    (Except.ok a : Except Err α) >>= f = f a := rfl

theorem parseObjectField_rt (b : Bool) :
    parseObjectField (if b then some (J.str "block") else none) = .ok b := by
  cases b <;> rfl

theorem parsePatternField_rt (name : String) {i : Option String}
    (h : optUUID i = true) :
    parsePatternField name (i.map J.str) = .ok i := by
  cases i with
  | none => rfl
  | some s =>
    have h2 : matchesUUID s = true := h
    simp [parsePatternField, h2]

theorem parseObjField_rt (name : String) {v : Option J}
    (h : optIsObj v = true) :
    parseObjField name v = .ok v := by
  match v with
  | none => rfl
  | some (J.obj kvs) => rfl
  | some J.null => simp [optIsObj, isObj] at h
  | some (J.bool b) => simp [optIsObj, isObj] at h
  | some (J.num n) => simp [optIsObj, isObj] at h
  | some (J.str s) => simp [optIsObj, isObj] at h
  | some (J.arr xs) => simp [optIsObj, isObj] at h

theorem parseDtField_rt (name : String) {t : Option DTime}
    (hwf : optDtWF t = true)
    (hm : dtNoFrac t = true) :
    parseDtField name (t.map fun d => J.str (dtFormat d)) = .ok t := by
  cases t with
  | none => rfl
  | some d =>
    have h2 : dtWF d = true := hwf
    simp [parseDtField, dtParse_dtFormat h2 (by simpa [dtNoFrac] using hm)]

theorem parseEnvelope_serialize (e : Envelope) (rest : List (String × J))
    (hrest : ∀ k, k ∈ envKeys → jget rest k = none)
    (hwf : envWF e = true) (hct : dtNoFrac e.created_time = true)
    (hlt : dtNoFrac e.last_edited_time = true) :
    parseEnvelope (serializeEnvelope e ++ rest) = .ok e := by
  obtain ⟨ob, i, par, ct, lt, cb, lb, hc, ar, it, rq⟩ := e
  simp only [envWF, Bool.and_eq_true] at hwf
  obtain ⟨⟨⟨⟨⟨⟨h1, h2⟩, h3⟩, h4⟩, h5⟩, h6⟩, h7⟩ := hwf
  have k1 : jget (serializeEnvelope ⟨ob, i, par, ct, lt, cb, lb, hc, ar, it, rq⟩ ++ rest)
      "object" = (if ob then some (J.str "block") else none) := by
    cases ob <;>
      simp [serializeEnvelope, List.append_assoc, jget_optEntry_ne, jget_optEntry_eq,
        jget_optEntry_none, jget, hrest "object" (by decide)]
  have k2 : jget (serializeEnvelope ⟨ob, i, par, ct, lt, cb, lb, hc, ar, it, rq⟩ ++ rest)
      "id" = i.map J.str := by
    cases i <;>
      simp [serializeEnvelope, List.append_assoc, jget_optEntry_ne, jget_optEntry_eq,
        jget_optEntry_none, jget, hrest "id" (by decide)]
  have k3 : jget (serializeEnvelope ⟨ob, i, par, ct, lt, cb, lb, hc, ar, it, rq⟩ ++ rest)
      "parent" = par := by
    cases par <;>
      simp [serializeEnvelope, List.append_assoc, jget_optEntry_ne, jget_optEntry_eq,
        jget_optEntry_none, jget, hrest "parent" (by decide)]
  have k4 : jget (serializeEnvelope ⟨ob, i, par, ct, lt, cb, lb, hc, ar, it, rq⟩ ++ rest)
      "created_time" = ct.map fun d => J.str (dtFormat d) := by
    cases ct <;>
      simp [serializeEnvelope, List.append_assoc, jget_optEntry_ne, jget_optEntry_eq,
        jget_optEntry_none, jget, hrest "created_time" (by decide)]
  have k5 : jget (serializeEnvelope ⟨ob, i, par, ct, lt, cb, lb, hc, ar, it, rq⟩ ++ rest)
      "last_edited_time" = lt.map fun d => J.str (dtFormat d) := by
    cases lt <;>
      simp [serializeEnvelope, List.append_assoc, jget_optEntry_ne, jget_optEntry_eq,
        jget_optEntry_none, jget, hrest "last_edited_time" (by decide)]
  have k6 : jget (serializeEnvelope ⟨ob, i, par, ct, lt, cb, lb, hc, ar, it, rq⟩ ++ rest)
      "created_by" = cb := by
    cases cb <;>
      simp [serializeEnvelope, List.append_assoc, jget_optEntry_ne, jget_optEntry_eq,
        jget_optEntry_none, jget, hrest "created_by" (by decide)]
  have k7 : jget (serializeEnvelope ⟨ob, i, par, ct, lt, cb, lb, hc, ar, it, rq⟩ ++ rest)
      "last_edited_by" = lb := by
    cases lb <;>
      simp [serializeEnvelope, List.append_assoc, jget_optEntry_ne, jget_optEntry_eq,
        jget_optEntry_none, jget, hrest "last_edited_by" (by decide)]
  have k8 : jget (serializeEnvelope ⟨ob, i, par, ct, lt, cb, lb, hc, ar, it, rq⟩ ++ rest)
      "has_children" = some (J.bool hc) := by
    simp [serializeEnvelope, List.append_assoc, jget_optEntry_ne, jget_optEntry_eq,
      jget_optEntry_none, jget]
  have k9 : jget (serializeEnvelope ⟨ob, i, par, ct, lt, cb, lb, hc, ar, it, rq⟩ ++ rest)
      "archived" = some (J.bool ar) := by
    simp [serializeEnvelope, List.append_assoc, jget_optEntry_ne, jget_optEntry_eq,
      jget_optEntry_none, jget]
  have k10 : jget (serializeEnvelope ⟨ob, i, par, ct, lt, cb, lb, hc, ar, it, rq⟩ ++ rest)
      "in_trash" = some (J.bool it) := by
    simp [serializeEnvelope, List.append_assoc, jget_optEntry_ne, jget_optEntry_eq,
      jget_optEntry_none, jget]
  have k11 : jget (serializeEnvelope ⟨ob, i, par, ct, lt, cb, lb, hc, ar, it, rq⟩ ++ rest)
      "request_id" = rq.map J.str := by
    cases rq <;>
      simp [serializeEnvelope, List.append_assoc, jget_optEntry_ne, jget_optEntry_eq,
        jget_optEntry_none, jget, hrest "request_id" (by decide)]
  simp only [parseEnvelope, k1, k2, k3, k4, k5, k6, k7, k8, k9, k10, k11]
  rw [parseObjectField_rt ob, bind_ok_except]
  rw [parsePatternField_rt "id" h1, bind_ok_except]
  rw [parseObjField_rt "parent" h3, bind_ok_except]
  rw [parseDtField_rt "created_time" h6 hct, bind_ok_except]
  rw [parseDtField_rt "last_edited_time" h7 hlt, bind_ok_except]
  rw [parseObjField_rt "created_by" h4, bind_ok_except]
  rw [parseObjField_rt "last_edited_by" h5, bind_ok_except]
  rw [show parseBoolField "has_children" false (some (J.bool hc)) = .ok hc from rfl,
    bind_ok_except]
  rw [show parseBoolField "archived" false (some (J.bool ar)) = .ok ar from rfl,
    bind_ok_except]
  rw [show parseBoolField "in_trash" false (some (J.bool it)) = .ok it from rfl,
    bind_ok_except]
  rw [parsePatternField_rt "request_id" h2, bind_ok_except]
  rfl


theorem bind_ok_inv {α β : Type} {x : Except Err α} {f : α → Except Err β} {b : β}
    (h : x >>= f = .ok b) : ∃ a, x = .ok a ∧ f a = .ok b := by
  cases x with
  | ok a => exact ⟨a, rfl, h⟩
  | error e => cases h

theorem parsePatternField_wf {name : String} {o : Option J} {i : Option String}
    (h : parsePatternField name o = .ok i) : optUUID i = true := by
  unfold parsePatternField at h
  repeat' split at h
  all_goals try cases h
  all_goals try rfl
  all_goals assumption

theorem parseObjField_wf {name : String} {o : Option J} {v : Option J}
    (h : parseObjField name o = .ok v) : optIsObj v = true := by
  unfold parseObjField at h
  repeat' split at h
  all_goals try cases h
  all_goals rfl

theorem parseDtField_wf {name : String} {o : Option J} {t : Option DTime}
    (h : parseDtField name o = .ok t) : optDtWF t = true := by
  unfold parseDtField at h
  repeat' split at h
  all_goals try cases h
  all_goals try rfl
  rename_i s d hd
  exact dtParse_wf hd

theorem parseEnvelope_wf {kvs : List (String × J)} {e : Envelope}
    (h : parseEnvelope kvs = .ok e) : envWF e = true := by
  unfold parseEnvelope at h
  obtain ⟨ob, hob, h⟩ := bind_ok_inv h
  obtain ⟨i, hi, h⟩ := bind_ok_inv h
  obtain ⟨par, hpar, h⟩ := bind_ok_inv h
  obtain ⟨ct, hct, h⟩ := bind_ok_inv h
  obtain ⟨lt, hlt, h⟩ := bind_ok_inv h
  obtain ⟨cb, hcb, h⟩ := bind_ok_inv h
  obtain ⟨lb, hlb, h⟩ := bind_ok_inv h
  obtain ⟨hc, hhc, h⟩ := bind_ok_inv h
  obtain ⟨ar, har, h⟩ := bind_ok_inv h
  obtain ⟨it, hit, h⟩ := bind_ok_inv h
  obtain ⟨rq, hrq, h⟩ := bind_ok_inv h
  cases h
  simp only [envWF, Bool.and_eq_true]
  exact ⟨⟨⟨⟨⟨⟨parsePatternField_wf hi, parsePatternField_wf hrq⟩,
    parseObjField_wf hpar⟩, parseObjField_wf hcb⟩, parseObjField_wf hlb⟩,
    parseDtField_wf hct⟩, parseDtField_wf hlt⟩

theorem parseRichTextField_wf {name : String} {o : Option J} {v : J}
    (h : parseRichTextField name o = .ok v) : isArr v = true := by
  unfold parseRichTextField at h
  split at h
  · cases h; rfl
  · cases h

theorem parseFileField_wf {name : String} {o : Option J} {v : J}
    (h : parseFileField name o = .ok v) : isObj v = true := by
  unfold parseFileField at h
  split at h
  · cases h; rfl
  · cases h

theorem parseSyncedFrom_wf {o : Option J} {sf : Option String}
    (h : parseSyncedFrom o = .ok sf) : optUUID sf = true := by
  unfold parseSyncedFrom at h
  repeat' split at h
  all_goals try cases h
  all_goals try rfl
  all_goals assumption

theorem parseCellsField_wf {o : Option J} {cells : List J}
    (h : parseCellsField o = .ok cells) : cells.all isArr = true := by
  unfold parseCellsField at h
  repeat' split at h
  all_goals try cases h
  rename_i xs hall
  simp only [List.all_eq_true] at hall ⊢
  intro x hx
  have := hall x hx
  cases x <;> simp_all [isArr]


theorem parseHeadingData_wf {opj : Option J} {rt : J} {c : String} {tg : Bool}
    (h : parseHeadingData opj = .ok (rt, c, tg)) : isArr rt = true := by
  unfold parseHeadingData at h
  repeat' split at h
  all_goals try cases h
  all_goals exact parseRichTextField_wf (by assumption)

set_option maxHeartbeats 3200000 in
theorem parse_wf_main : ∀ k : Nat,
    (∀ {j : J} {n : Node}, sizeOf j ≤ k → parseChildNodeJ j = .ok n →
      nodeWF n = true) ∧
    (∀ {tag : String} {opj : Option J} {p : Payload}, sizeOf opj ≤ k →
      parsePayloadValue tag opj = .ok p → payloadWF p = true) ∧
    (∀ {pkvs : List (String × J)} {rt : J} {c : String} {ch : Option (List Node)},
      sizeOf pkvs ≤ k → parseTextChildren pkvs = .ok (rt, c, ch) →
      isArr rt = true ∧ childrenWF ch = true) ∧
    (∀ {pkvs : List (String × J)} {ch : Option (List Node)}, sizeOf pkvs ≤ k →
      parseChildrenInPkvs pkvs = .ok ch → childrenWF ch = true) ∧
    (∀ {js : List J} {ns : List Node}, sizeOf js ≤ k →
      parseChildList js = .ok ns → nodeListWF ns = true) := by
  intro k
  induction k using Nat.strong_induction_on with
  | _ k IH =>
    refine ⟨?_, ?_, ?_, ?_, ?_⟩
    · intro j n hk h
      rcases j with _ | b | m | s | xs | kvs
      case null => unfold parseChildNodeJ at h; cases h
      case bool => unfold parseChildNodeJ at h; cases h
      case num => unfold parseChildNodeJ at h; cases h
      case str => unfold parseChildNodeJ at h; cases h
      case arr => unfold parseChildNodeJ at h; cases h
      case obj =>
        have hkvs := list_sizeOf_pos kvs
        simp only [J.obj.sizeOf_spec] at hk
        unfold parseChildNodeJ at h
        rcases het : effTag kvs with e | tag <;> rw [het] at h
        · cases h
        · dsimp only at h
          by_cases hct : registryTags.contains tag = true
          · rw [if_pos hct] at h
            rcases henv : parseEnvelope kvs with e | env <;> rw [henv] at h
            · cases h
            · dsimp only at h
              rcases hjp : jget kvs (payloadKey tag) with _ | pj <;> rw [hjp] at h
              · dsimp only at h
                rcases hpv : parsePayloadValue tag none with e | p <;> rw [hpv] at h
                · cases h
                · dsimp only at h
                  cases h
                  simp only [nodeWF, Bool.and_eq_true]
                  refine ⟨parseEnvelope_wf henv,
                    (IH (sizeOf (none : Option J)) (by simp; omega)).2.1 (le_refl _) hpv⟩
              · dsimp only at h
                have hpj := jget_sizeOf hjp
                rcases hpv : parsePayloadValue tag (some pj) with e | p <;> rw [hpv] at h
                · cases h
                · dsimp only at h
                  cases h
                  simp only [nodeWF, Bool.and_eq_true]
                  refine ⟨parseEnvelope_wf henv,
                    (IH (sizeOf (some pj)) (by simp; omega)).2.1 (le_refl _) hpv⟩
          · rw [if_neg hct] at h
            cases h
    · intro tag opj p hk h
      rcases opj with _ | (_ | b | m | s | xs | pkvs)
      all_goals unfold parsePayloadValue at h
      all_goals split at h
      all_goals try dsimp only at h
      all_goals try cases h
      all_goals (repeat' split at h)
      all_goals try cases h
      all_goals try (simp only [payloadWF]; rfl)
      all_goals try simp only [Option.some.sizeOf_spec, J.obj.sizeOf_spec] at hk
      all_goals simp only [payloadWF, Bool.and_eq_true]
      all_goals
        first
        | exact parseRichTextField_wf (by assumption)
        | exact parseFileField_wf (by assumption)
        | exact parseHeadingData_wf (by assumption)
        | exact (IH (sizeOf pkvs) (by omega)).2.2.1 (le_refl _) (by assumption)
        | exact parseCellsField_wf (by assumption)
        | exact ⟨parseRichTextField_wf (by assumption), parseRichTextField_wf (by assumption)⟩
        | exact ⟨parseSyncedFrom_wf (by assumption),
            (IH (sizeOf pkvs) (by omega)).2.2.2.1 (le_refl _) (by assumption)⟩
    · intro pkvs rt c ch hk h
      unfold parseTextChildren at h
      rcases hrt : parseRichTextField "rich_text" (jget pkvs "rich_text") with e | rt0 <;>
        rw [hrt] at h
      · cases h
      · dsimp only at h
        rcases hcol : parseColorField (jget pkvs "color") with e | c0 <;> rw [hcol] at h
        · cases h
        · dsimp only at h
          rcases hc : jget pkvs "children" with _ | cv
          · rw [hc] at h
            dsimp only at h
            cases h
            exact ⟨parseRichTextField_wf hrt, by simp [childrenWF]⟩
          · rw [hc] at h
            have hcv := jget_sizeOf hc
            rcases cv with _ | b | m | s | js | okvs <;> dsimp only at h
            · cases h
              exact ⟨parseRichTextField_wf hrt, by simp [childrenWF]⟩
            · cases h
            · cases h
            · cases h
            · rcases hcl : parseChildList js with e | ns <;> rw [hcl] at h
              · cases h
              · dsimp only at h
                cases h
                refine ⟨parseRichTextField_wf hrt, ?_⟩
                simp only [childrenWF]
                simp only [J.arr.sizeOf_spec] at hcv
                exact (IH (sizeOf js) (by omega)).2.2.2.2 (le_refl _) hcl
            · cases h
    · intro pkvs ch hk h
      unfold parseChildrenInPkvs at h
      rcases hc : jget pkvs "children" with _ | cv
      · rw [hc] at h
        dsimp only at h
        cases h
        simp [childrenWF]
      · rw [hc] at h
        have hcv := jget_sizeOf hc
        rcases cv with _ | b | m | s | js | okvs <;> dsimp only at h
        · cases h
          simp [childrenWF]
        · cases h
        · cases h
        · cases h
        · rcases hcl : parseChildList js with e | ns <;> rw [hcl] at h
          · cases h
          · dsimp only at h
            cases h
            simp only [childrenWF]
            simp only [J.arr.sizeOf_spec] at hcv
            exact (IH (sizeOf js) (by omega)).2.2.2.2 (le_refl _) hcl
        · cases h
    · intro js ns hk h
      match js with
      | [] =>
        unfold parseChildList at h
        cases h
        simp [nodeListWF]
      | j :: rest =>
        simp only [List.cons.sizeOf_spec] at hk
        unfold parseChildList at h
        rcases hn : parseChildNodeJ j with e | n0 <;> rw [hn] at h
        · cases h
        · dsimp only at h
          rcases hrest : parseChildList rest with e | ns0 <;> rw [hrest] at h
          · cases h
          · dsimp only at h
            cases h
            simp only [nodeListWF, Bool.and_eq_true]
            exact ⟨(IH (sizeOf j) (by omega)).1 (le_refl _) hn,
              (IH (sizeOf rest) (by omega)).2.2.2.2 (le_refl _) hrest⟩

theorem parseChildNodeJ_wf {j : J} {n : Node} (h : parseChildNodeJ j = .ok n) :
    nodeWF n = true :=
  (parse_wf_main (sizeOf j)).1 (le_refl _) h

theorem parsePayloadValue_wf {tag : String} {opj : Option J} {p : Payload}
    (h : parsePayloadValue tag opj = .ok p) : payloadWF p = true :=
  (parse_wf_main (sizeOf opj)).2.1 (le_refl _) h

theorem parseChildrenInPkvs_wf {pkvs : List (String × J)} {ch : Option (List Node)}
    (h : parseChildrenInPkvs pkvs = .ok ch) : childrenWF ch = true :=
  (parse_wf_main (sizeOf pkvs)).2.2.2.1 (le_refl _) h

theorem parseChildList_wf {js : List J} {ns : List Node}
    (h : parseChildList js = .ok ns) : nodeListWF ns = true :=
  (parse_wf_main (sizeOf js)).2.2.2.2 (le_refl _) h


theorem payloadTag_mem (p : Payload) : payloadTag p ∈ registryTags := by
  cases p <;> simp [payloadTag, registryTags]

theorem payloadTag_contains (p : Payload) : registryTags.contains (payloadTag p) = true := by
  cases p <;> rfl

theorem payloadKey_ne_type {t : String} (ht : t ∈ registryTags) :
    ¬ payloadKey t = "type" := by
  fin_cases ht <;> decide

theorem payloadKey_not_env {t : String} (ht : t ∈ registryTags) :
    ¬ payloadKey t ∈ envKeys := by
  fin_cases ht <;> decide

theorem type_not_env : ¬ "type" ∈ envKeys := by decide

theorem jget_cons_ne {k1 k : String} (h : ¬ k1 = k) (v : J) (rest : List (String × J)) :
    jget ((k1, v) :: rest) k = jget rest k := by
  simp [jget, h]

theorem jget_senv_skip (e : Envelope) (rest : List (String × J)) {k : String}
    (hk : ¬ k ∈ envKeys) :
    jget (serializeEnvelope e ++ rest) k = jget rest k := by
  simp only [envKeys, List.mem_cons, List.not_mem_nil, or_false, not_or] at hk
  obtain ⟨n1, n2, n3, n4, n5, n6, n7, n8, n9, n10, n11⟩ := hk
  simp only [serializeEnvelope, List.append_assoc, List.cons_append]
  rw [jget_optEntry_ne (fun hh => n1 hh.symm), jget_optEntry_ne (fun hh => n2 hh.symm),
    jget_optEntry_ne (fun hh => n3 hh.symm), jget_optEntry_ne (fun hh => n4 hh.symm),
    jget_optEntry_ne (fun hh => n5 hh.symm), jget_optEntry_ne (fun hh => n6 hh.symm),
    jget_optEntry_ne (fun hh => n7 hh.symm), jget_cons_ne (fun hh => n8 hh.symm),
    jget_cons_ne (fun hh => n9 hh.symm), jget_cons_ne (fun hh => n10 hh.symm),
    List.nil_append, jget_optEntry_ne (fun hh => n11 hh.symm)]

theorem jget_rest_env {t : String} (ht : t ∈ registryTags) (tv pj : J) {k : String}
    (hk : k ∈ envKeys) :
    jget [("type", tv), (payloadKey t, pj)] k = none := by
  have h1 : ¬ "type" = k := fun hh => type_not_env (hh ▸ hk)
  have h2 : ¬ payloadKey t = k := fun hh => payloadKey_not_env ht (hh ▸ hk)
  simp [jget, h1, h2]

theorem isArr_exists {v : J} (h : isArr v = true) : ∃ xs, v = J.arr xs := by
  cases v <;> simp [isArr] at h ⊢

theorem isObj_exists {v : J} (h : isObj v = true) : ∃ kvs, v = J.obj kvs := by
  cases v <;> simp [isObj] at h ⊢

def childrenJ : Option (List Node) → Option J
  | none => none
  | some ns => some (J.arr (serializeNodeList ns))

theorem jget_sce (ch : Option (List Node)) :
    jget (serializeChildrenEntry ch) "children" = childrenJ ch := by
  cases ch <;> simp [serializeChildrenEntry, childrenJ, jget]

theorem parseTextChildren_ser (xs : List J) (c : String) (ch : Option (List Node))
    {pkvs : List (String × J)}
    (h1 : jget pkvs "rich_text" = some (J.arr xs))
    (h2 : jget pkvs "color" = some (J.str c))
    (h3 : jget pkvs "children" = childrenJ ch)
    (hch : ∀ ns, ch = some ns → parseChildList (serializeNodeList ns) = .ok ns) :
    parseTextChildren pkvs = .ok (.arr xs, c, ch) := by
  unfold parseTextChildren
  rw [h1]
  dsimp only [parseRichTextField]
  rw [h2]
  dsimp only [parseColorField]
  cases ch with
  | none =>
    rw [show jget pkvs "children" = none from h3]
  | some ns =>
    rw [show jget pkvs "children" = some (J.arr (serializeNodeList ns)) from h3]
    dsimp only
    rw [hch ns rfl]


theorem parsePayloadValue_step_paragraph (pkvs : List (String × J)) :
    parsePayloadValue "paragraph" (some (J.obj pkvs)) =
      match parseTextChildren pkvs with
      | .ok (rt, c, ch) => .ok (.paragraph rt c ch)
      | .error e => .error e := by
  unfold parsePayloadValue
  rfl

theorem parsePayloadValue_step_quote (pkvs : List (String × J)) :
    parsePayloadValue "quote" (some (J.obj pkvs)) =
      match parseTextChildren pkvs with
      | .ok (rt, c, ch) => .ok (.quote rt c ch)
      | .error e => .error e := by
  unfold parsePayloadValue
  rfl

theorem parsePayloadValue_step_toggle (pkvs : List (String × J)) :
    parsePayloadValue "toggle" (some (J.obj pkvs)) =
      match parseTextChildren pkvs with
      | .ok (rt, c, ch) => .ok (.toggle rt c ch)
      | .error e => .error e := by
  unfold parsePayloadValue
  rfl

theorem parsePayloadValue_step_numbered (pkvs : List (String × J)) :
    parsePayloadValue "numbered_list_item" (some (J.obj pkvs)) =
      match parseTextChildren pkvs with
      | .ok (rt, c, ch) => .ok (.numbered_list_item rt c ch)
      | .error e => .error e := by
  unfold parsePayloadValue
  rfl

theorem parsePayloadValue_step_to_do (pkvs : List (String × J)) :
    parsePayloadValue "to_do" (some (J.obj pkvs)) =
      match parseBoolField "checked" false (jget pkvs "checked") with
      | .error e => .error e
      | .ok chk =>
        match parseTextChildren pkvs with
        | .ok (rt, c, ch) => .ok (.to_do rt chk c ch)
        | .error e => .error e := by
  unfold parsePayloadValue
  rfl

theorem parsePayloadValue_step_synced (pkvs : List (String × J)) :
    parsePayloadValue "synced_block" (some (J.obj pkvs)) =
      match parseSyncedFrom (jget pkvs "synced_from") with
      | .error e => .error e
      | .ok sf =>
        match parseChildrenInPkvs pkvs with
        | .ok ch => .ok (.synced_block sf ch)
        | .error e => .error e := by
  unfold parsePayloadValue
  rfl

theorem parseChildrenInPkvs_ser (ch : Option (List Node)) {pkvs : List (String × J)}
    (h3 : jget pkvs "children" = childrenJ ch)
    (hch : ∀ ns, ch = some ns → parseChildList (serializeNodeList ns) = .ok ns) :
    parseChildrenInPkvs pkvs = .ok ch := by
  unfold parseChildrenInPkvs
  cases ch with
  | none => rw [show jget pkvs "children" = none from h3]
  | some ns =>
    rw [show jget pkvs "children" = some (J.arr (serializeNodeList ns)) from h3]
    dsimp only
    rw [hch ns rfl]

set_option maxHeartbeats 3200000 in
theorem reparse_main : ∀ k : Nat,
    (∀ {n : Node}, sizeOf n ≤ k → nodeWF n = true → nodeSafe n = true →
      parseChildNodeJ (serializeNode n) = .ok n) ∧
    (∀ {p : Payload}, sizeOf p ≤ k → payloadWF p = true → payloadSafe p = true →
      parsePayloadValue (payloadTag p) (some (serializePayloadJ p)) = .ok p) ∧
    (∀ {ns : List Node}, sizeOf ns ≤ k → nodeListWF ns = true →
      nodeListSafe ns = true → parseChildList (serializeNodeList ns) = .ok ns) := by
  intro k
  induction k using Nat.strong_induction_on with
  | _ k IH =>
    refine ⟨?_, ?_, ?_⟩
    · intro n hk hwf hsafe
      obtain ⟨e, p⟩ := n
      simp only [nodeWF, Bool.and_eq_true] at hwf
      obtain ⟨henv, hpwf⟩ := hwf
      simp only [nodeSafe, Bool.and_eq_true] at hsafe
      obtain ⟨⟨hct, hlt⟩, hps⟩ := hsafe
      simp only [Node.mk.sizeOf_spec] at hk
      have hmem := payloadTag_mem p
      have hrest : ∀ kk, kk ∈ envKeys →
          jget [("type", J.str (payloadTag p)),
            (payloadKey (payloadTag p), serializePayloadJ p)] kk = none :=
        fun kk hkk => jget_rest_env hmem _ _ hkk
      simp only [serializeNode]
      have htype : jget (serializeEnvelope e ++
          [("type", J.str (payloadTag p)),
            (payloadKey (payloadTag p), serializePayloadJ p)]) "type" =
          some (J.str (payloadTag p)) := by
        rw [jget_senv_skip _ _ type_not_env]
        simp [jget]
      have heff : effTag (serializeEnvelope e ++
          [("type", J.str (payloadTag p)),
            (payloadKey (payloadTag p), serializePayloadJ p)]) =
          .ok (payloadTag p) := by
        simp [effTag, hasKey, htype]
      have hpl : jget (serializeEnvelope e ++
          [("type", J.str (payloadTag p)),
            (payloadKey (payloadTag p), serializePayloadJ p)])
          (payloadKey (payloadTag p)) = some (serializePayloadJ p) := by
        rw [jget_senv_skip _ _ (payloadKey_not_env hmem)]
        rw [jget_cons_ne (fun hh => payloadKey_ne_type hmem hh.symm)]
        simp [jget]
      unfold parseChildNodeJ
      rw [heff]
      dsimp only
      rw [if_pos (payloadTag_contains p)]
      rw [parseEnvelope_serialize e _ hrest henv hct hlt]
      dsimp only
      rw [hpl]
      dsimp only
      rw [(IH (sizeOf p) (by omega)).2.1 (le_refl _) hpwf hps]
    · intro p hk hwf hsafe
      cases p with
      | bookmark u cap =>
        simp only [payloadWF] at hwf
        obtain ⟨xs, rfl⟩ := isArr_exists hwf
        simp only [payloadTag, serializePayloadJ]
        unfold parsePayloadValue
        simp [jget, parseStrField, parseRichTextField]
      | breadcrumb d =>
        simp only [payloadTag, serializePayloadJ]
        unfold parsePayloadValue
        simp [parseDictDefault]
      | bulleted_list_item rt =>
        simp only [payloadWF] at hwf
        obtain ⟨xs, rfl⟩ := isArr_exists hwf
        simp only [payloadTag, serializePayloadJ]
        unfold parsePayloadValue
        simp
      | callout rt ic c =>
        simp only [payloadWF] at hwf
        obtain ⟨xs, rfl⟩ := isArr_exists hwf
        simp only [payloadTag, serializePayloadJ]
        unfold parsePayloadValue
        cases ic <;>
          simp [jget, optEntry, parseRichTextField, parseOptStrField, parseColorField]
      | child_database t =>
        simp only [payloadTag, serializePayloadJ]
        unfold parsePayloadValue
        simp [jget, parseStrField]
      | child_page t =>
        simp only [payloadTag, serializePayloadJ]
        unfold parsePayloadValue
        simp [jget, parseStrField]
      | code cap rt lang =>
        simp only [payloadWF, Bool.and_eq_true] at hwf
        obtain ⟨h1, h2⟩ := hwf
        obtain ⟨xs, rfl⟩ := isArr_exists h1
        obtain ⟨ys, rfl⟩ := isArr_exists h2
        simp only [payloadTag, serializePayloadJ]
        unfold parsePayloadValue
        simp [jget, parseStrField, parseRichTextField]
      | column_list d =>
        simp only [payloadTag, serializePayloadJ]
        unfold parsePayloadValue
        simp [parseDictDefault]
      | column d =>
        simp only [payloadTag, serializePayloadJ]
        unfold parsePayloadValue
        simp [parseDictDefault]
      | heading_1 rt c tg =>
        simp only [payloadWF] at hwf
        obtain ⟨xs, rfl⟩ := isArr_exists hwf
        simp only [payloadTag, serializePayloadJ]
        unfold parsePayloadValue
        simp [parseHeadingData, jget, parseRichTextField, parseColorField, parseBoolField]
      | divider d =>
        simp only [payloadTag, serializePayloadJ]
        unfold parsePayloadValue
        simp [parseDictDefault]
      | embed u =>
        simp only [payloadTag, serializePayloadJ]
        unfold parsePayloadValue
        simp
      | equation ex =>
        simp only [payloadTag, serializePayloadJ]
        unfold parsePayloadValue
        simp [jget, parseStrField]
      | file f =>
        simp only [payloadWF] at hwf
        obtain ⟨kvs, rfl⟩ := isObj_exists hwf
        simp only [payloadTag, serializePayloadJ]
        unfold parsePayloadValue
        simp [parseFileField]
      | heading_2 rt c tg =>
        simp only [payloadWF] at hwf
        obtain ⟨xs, rfl⟩ := isArr_exists hwf
        simp only [payloadTag, serializePayloadJ]
        unfold parsePayloadValue
        simp [parseHeadingData, jget, parseRichTextField, parseColorField, parseBoolField]
      | heading_3 rt c tg =>
        simp only [payloadWF] at hwf
        obtain ⟨xs, rfl⟩ := isArr_exists hwf
        simp only [payloadTag, serializePayloadJ]
        unfold parsePayloadValue
        simp [parseHeadingData, jget, parseRichTextField, parseColorField, parseBoolField]
      | image f =>
        simp only [payloadWF] at hwf
        obtain ⟨kvs, rfl⟩ := isObj_exists hwf
        simp only [payloadTag, serializePayloadJ]
        unfold parsePayloadValue
        simp [jget, parseFileField]
      | link_preview u =>
        simp only [payloadTag, serializePayloadJ]
        unfold parsePayloadValue
        simp
      | numbered_list_item rt c ch =>
        simp only [payloadWF, Bool.and_eq_true] at hwf
        obtain ⟨h1, h2⟩ := hwf
        obtain ⟨xs, rfl⟩ := isArr_exists h1
        simp only [payloadSafe] at hsafe
        simp only [Payload.numbered_list_item.sizeOf_spec] at hk
        simp only [payloadTag, serializePayloadJ]
        rw [parsePayloadValue_step_numbered]
        rw [parseTextChildren_ser xs c ch (by simp [jget]) (by simp [jget])
          (by simp [jget, List.cons_append, jget_sce])
          (fun ns hns => by
            subst hns
            simp only [childrenWF] at h2
            simp only [childrenSafe] at hsafe
            simp only [Option.some.sizeOf_spec] at hk
            exact (IH (sizeOf ns) (by omega)).2.2 (le_refl _) h2 hsafe)]
      | paragraph rt c ch =>
        simp only [payloadWF, Bool.and_eq_true] at hwf
        obtain ⟨h1, h2⟩ := hwf
        obtain ⟨xs, rfl⟩ := isArr_exists h1
        simp only [payloadSafe] at hsafe
        simp only [Payload.paragraph.sizeOf_spec] at hk
        simp only [payloadTag, serializePayloadJ]
        rw [parsePayloadValue_step_paragraph]
        rw [parseTextChildren_ser xs c ch (by simp [jget]) (by simp [jget])
          (by simp [jget, List.cons_append, jget_sce])
          (fun ns hns => by
            subst hns
            simp only [childrenWF] at h2
            simp only [childrenSafe] at hsafe
            simp only [Option.some.sizeOf_spec] at hk
            exact (IH (sizeOf ns) (by omega)).2.2 (le_refl _) h2 hsafe)]
      | quote rt c ch =>
        simp only [payloadWF, Bool.and_eq_true] at hwf
        obtain ⟨h1, h2⟩ := hwf
        obtain ⟨xs, rfl⟩ := isArr_exists h1
        simp only [payloadSafe] at hsafe
        simp only [Payload.quote.sizeOf_spec] at hk
        simp only [payloadTag, serializePayloadJ]
        rw [parsePayloadValue_step_quote]
        rw [parseTextChildren_ser xs c ch (by simp [jget]) (by simp [jget])
          (by simp [jget, List.cons_append, jget_sce])
          (fun ns hns => by
            subst hns
            simp only [childrenWF] at h2
            simp only [childrenSafe] at hsafe
            simp only [Option.some.sizeOf_spec] at hk
            exact (IH (sizeOf ns) (by omega)).2.2 (le_refl _) h2 hsafe)]
      | synced_block sf ch =>
        simp only [payloadWF, Bool.and_eq_true] at hwf
        obtain ⟨h1, h2⟩ := hwf
        simp only [payloadSafe, Bool.and_eq_true] at hsafe
        obtain ⟨hs1, hs2⟩ := hsafe
        match sf with
        | none => simp at hs1
        | some s =>
          have huuid : matchesUUID s = true := h1
          simp only [Payload.synced_block.sizeOf_spec] at hk
          simp only [payloadTag, serializePayloadJ, serializeSyncedFrom]
          rw [parsePayloadValue_step_synced]
          simp only [List.cons_append, List.nil_append]
          have hsf : jget (("synced_from", J.obj [("block_id", J.str s)]) ::
              serializeChildrenEntry ch) "synced_from" =
              some (J.obj [("block_id", J.str s)]) := by simp [jget]
          rw [hsf]
          have hsfr : parseSyncedFrom (some (J.obj [("block_id", J.str s)])) =
              .ok (some s) := by
            unfold parseSyncedFrom
            simp [jget, huuid]
          rw [hsfr]
          dsimp only
          rw [parseChildrenInPkvs_ser ch
            (by simp [jget, jget_sce])
            (fun ns hns => by
              subst hns
              simp only [childrenWF] at h2
              simp only [childrenSafe] at hs2
              simp only [Option.some.sizeOf_spec] at hk
              exact (IH (sizeOf ns) (by omega)).2.2 (le_refl _) h2 hs2)]
      | table w hch hrh =>
        simp only [payloadTag, serializePayloadJ]
        unfold parsePayloadValue
        simp [jget, parseIntField, parseBoolRequired]
      | table_row cells =>
        simp only [payloadWF] at hwf
        simp only [payloadTag, serializePayloadJ]
        unfold parsePayloadValue
        simp [jget, parseCellsField, hwf]
      | to_do rt chk c ch =>
        simp only [payloadWF, Bool.and_eq_true] at hwf
        obtain ⟨h1, h2⟩ := hwf
        obtain ⟨xs, rfl⟩ := isArr_exists h1
        simp only [payloadSafe] at hsafe
        simp only [Payload.to_do.sizeOf_spec] at hk
        simp only [payloadTag, serializePayloadJ]
        rw [parsePayloadValue_step_to_do]
        have hchk : jget ([("rich_text", J.arr xs), ("checked", J.bool chk),
            ("color", J.str c)] ++ serializeChildrenEntry ch) "checked" =
            some (J.bool chk) := by simp [jget]
        rw [hchk]
        dsimp only [parseBoolField]
        rw [parseTextChildren_ser xs c ch (by simp [jget]) (by simp [jget])
          (by simp [jget, List.cons_append, jget_sce])
          (fun ns hns => by
            subst hns
            simp only [childrenWF] at h2
            simp only [childrenSafe] at hsafe
            simp only [Option.some.sizeOf_spec] at hk
            exact (IH (sizeOf ns) (by omega)).2.2 (le_refl _) h2 hsafe)]
      | toggle rt c ch =>
        simp only [payloadWF, Bool.and_eq_true] at hwf
        obtain ⟨h1, h2⟩ := hwf
        obtain ⟨xs, rfl⟩ := isArr_exists h1
        simp only [payloadSafe] at hsafe
        simp only [Payload.toggle.sizeOf_spec] at hk
        simp only [payloadTag, serializePayloadJ]
        rw [parsePayloadValue_step_toggle]
        rw [parseTextChildren_ser xs c ch (by simp [jget]) (by simp [jget])
          (by simp [jget, List.cons_append, jget_sce])
          (fun ns hns => by
            subst hns
            simp only [childrenWF] at h2
            simp only [childrenSafe] at hsafe
            simp only [Option.some.sizeOf_spec] at hk
            exact (IH (sizeOf ns) (by omega)).2.2 (le_refl _) h2 hsafe)]
      | video f =>
        simp only [payloadWF] at hwf
        obtain ⟨kvs, rfl⟩ := isObj_exists hwf
        simp only [payloadTag, serializePayloadJ]
        unfold parsePayloadValue
        simp [jget, parseFileField]
    · intro ns hk hwf hsafe
      match ns with
      | [] =>
        unfold serializeNodeList parseChildList
        rfl
      | n :: rest =>
        simp only [List.cons.sizeOf_spec] at hk
        simp only [nodeListWF, Bool.and_eq_true] at hwf
        obtain ⟨hw1, hw2⟩ := hwf
        simp only [nodeListSafe, Bool.and_eq_true] at hsafe
        obtain ⟨hs1, hs2⟩ := hsafe
        simp only [serializeNodeList]
        unfold parseChildList
        rw [(IH (sizeOf n) (by omega)).1 (le_refl _) hw1 hs1]
        dsimp only
        rw [(IH (sizeOf rest) (by omega)).2.2 (le_refl _) hw2 hs2]


/-- One-step unfolding of `parseChildNodeJ` on an object. -/
theorem parseChildNodeJ_step (kvs : List (String × J)) :
    parseChildNodeJ (J.obj kvs) =
      match effTag kvs with
      | .error e => .error e
      | .ok tag =>
        if registryTags.contains tag then
          match parseEnvelope kvs, parsePayloadValue tag (jget kvs (payloadKey tag)) with
          | .ok env, .ok p => .ok (.mk env p)
          | .error e, _ => .error e
          | .ok _, .error e => .error e
        else .error (.unknownVariant tag) := by
  unfold parseChildNodeJ
  rcases het : effTag kvs with e | tag
  · rfl
  · dsimp only
    by_cases hct : registryTags.contains tag = true
    · rw [if_pos hct, if_pos hct]
      rcases henv : parseEnvelope kvs with e | env
      · rfl
      · dsimp only
        rcases hjp : jget kvs (payloadKey tag) with _ | pj
        · dsimp only
          rcases hpv : parsePayloadValue tag none with e | p <;> rfl
        · dsimp only
          rcases hpv : parsePayloadValue tag (some pj) with e | p <;> rfl
    · rw [if_neg hct, if_neg hct]

theorem parseChildNodeJ_nonobj_null : parseChildNodeJ J.null = .error .typeError := by
  unfold parseChildNodeJ
  rfl

theorem parseChildNodeJ_nonobj_str (s : String) :
    parseChildNodeJ (J.str s) = .error .typeError := by
  unfold parseChildNodeJ
  rfl

theorem parseChildNodeJ_nonobj_bool (b : Bool) :
    parseChildNodeJ (J.bool b) = .error .typeError := by
  unfold parseChildNodeJ
  rfl

theorem parseChildNodeJ_nonobj_num (m : Int) :
    parseChildNodeJ (J.num m) = .error .typeError := by
  unfold parseChildNodeJ
  rfl

theorem parseChildNodeJ_nonobj_arr (xs : List J) :
    parseChildNodeJ (J.arr xs) = .error .typeError := by
  unfold parseChildNodeJ
  rfl

theorem parseChildList_nil : parseChildList [] = .ok [] := by
  unfold parseChildList
  rfl

theorem parseChildList_cons (j : J) (rest : List J) :
    parseChildList (j :: rest) =
      match parseChildNodeJ j with
      | .error e => .error e
      | .ok n =>
        match parseChildList rest with
        | .error e => .error e
        | .ok ns => .ok (n :: ns) := by
  conv_lhs => unfold parseChildList

/-- One-step unfolding of `parseTextChildren`. -/
theorem parseTextChildren_step (pkvs : List (String × J)) :
    parseTextChildren pkvs =
      match parseRichTextField "rich_text" (jget pkvs "rich_text") with
      | .error e => .error e
      | .ok rt =>
        match parseColorField (jget pkvs "color") with
        | .error e => .error e
        | .ok c =>
          match jget pkvs "children" with
          | none => .ok (rt, c, none)
          | some .null => .ok (rt, c, none)
          | some (.arr js) =>
            match parseChildList js with
            | .ok ns => .ok (rt, c, some ns)
            | .error e => .error e
          | some _ => .error (.validationError "children") := by
  unfold parseTextChildren
  rcases h1 : parseRichTextField "rich_text" (jget pkvs "rich_text") with e | rt
  · rfl
  · dsimp only
    rcases h2 : parseColorField (jget pkvs "color") with e | c
    · rfl
    · dsimp only
      rcases h3 : jget pkvs "children" with _ | cv
      · rfl
      · rcases cv with _ | b | m | s | js | okvs
        all_goals try rfl
        all_goals dsimp only
        all_goals rcases h4 : parseChildList js with e | ns <;> rfl

/-- One-step unfolding of `parseChildrenInPkvs`. -/
theorem parseChildrenInPkvs_step (pkvs : List (String × J)) :
    parseChildrenInPkvs pkvs =
      match jget pkvs "children" with
      | none => .ok none
      | some .null => .ok none
      | some (.arr js) =>
        match parseChildList js with
        | .ok ns => .ok (some ns)
        | .error e => .error e
      | some _ => .error (.validationError "children") := by
  unfold parseChildrenInPkvs
  rcases h3 : jget pkvs "children" with _ | cv
  · rfl
  · rcases cv with _ | b | m | s | js | okvs
    all_goals try rfl
    all_goals dsimp only
    all_goals rcases h4 : parseChildList js with e | ns <;> rfl

theorem ppv_step_bookmark (opj : Option J) :
    parsePayloadValue "bookmark" opj =
  (match opj with
| some (.obj pkvs) =>
  match parseStrField "url" (jget pkvs "url"),
        parseRichTextField "caption" (jget pkvs "caption") with
  | .ok u, .ok cap => .ok (.bookmark u cap)
  | .error e, _ => .error e
  | _, .error e => .error e
| _ => .error (.validationError "bookmark")) := by
  unfold parsePayloadValue
  rfl

theorem ppv_step_breadcrumb (opj : Option J) :
    parsePayloadValue "breadcrumb" opj =
  (match parseDictDefault "breadcrumb" opj with
| .ok d => .ok (.breadcrumb d)
| .error e => .error e) := by
  unfold parsePayloadValue
  rfl

theorem ppv_step_bulleted_list_item (opj : Option J) :
    parsePayloadValue "bulleted_list_item" opj =
  (match opj with
| some (.arr xs) => .ok (.bulleted_list_item (.arr xs))
| _ => .error (.validationError "bulleted_list_item")) := by
  unfold parsePayloadValue
  rfl

theorem ppv_step_callout (opj : Option J) :
    parsePayloadValue "callout" opj =
  (match opj with
| some (.obj pkvs) =>
  match parseRichTextField "rich_text" (jget pkvs "rich_text") with
  | .error e => .error e
  | .ok rt =>
    match parseOptStrField "icon" (jget pkvs "icon") with
    | .error e => .error e
    | .ok ic =>
      match parseColorField (jget pkvs "color") with
      | .error e => .error e
      | .ok c => .ok (.callout rt ic c)
| _ => .error (.validationError "callout")) := by
  unfold parsePayloadValue
  rfl

theorem ppv_step_child_database (opj : Option J) :
    parsePayloadValue "child_database" opj =
  (match opj with
| some (.obj pkvs) =>
  match parseStrField "title" (jget pkvs "title") with
  | .ok t => .ok (.child_database t)
  | .error e => .error e
| _ => .error (.validationError "child_database")) := by
  unfold parsePayloadValue
  rfl

theorem ppv_step_child_page (opj : Option J) :
    parsePayloadValue "child_page" opj =
  (match opj with
| some (.obj pkvs) =>
  match parseStrField "title" (jget pkvs "title") with
  | .ok t => .ok (.child_page t)
  | .error e => .error e
| _ => .error (.validationError "child_page")) := by
  unfold parsePayloadValue
  rfl

theorem ppv_step_code (opj : Option J) :
    parsePayloadValue "code" opj =
  (match opj with
| some (.obj pkvs) =>
  match parseRichTextField "caption" (jget pkvs "caption") with
  | .error e => .error e
  | .ok cap =>
    match parseRichTextField "rich_text" (jget pkvs "rich_text") with
    | .error e => .error e
    | .ok rt =>
      match parseStrField "language" (jget pkvs "language") with
      | .error e => .error e
      | .ok lang => .ok (.code cap rt lang)
| _ => .error (.validationError "code")) := by
  unfold parsePayloadValue
  rfl

theorem ppv_step_column_list (opj : Option J) :
    parsePayloadValue "column_list" opj =
  (match parseDictDefault "column_list" opj with
| .ok d => .ok (.column_list d)
| .error e => .error e) := by
  unfold parsePayloadValue
  rfl

theorem ppv_step_column (opj : Option J) :
    parsePayloadValue "column" opj =
  (match parseDictDefault "column" opj with
| .ok d => .ok (.column d)
| .error e => .error e) := by
  unfold parsePayloadValue
  rfl

theorem ppv_step_heading_1 (opj : Option J) :
    parsePayloadValue "heading_1" opj =
  (match parseHeadingData opj with
| .ok (rt, c, tg) => .ok (.heading_1 rt c tg)
| .error e => .error e) := by
  unfold parsePayloadValue
  rfl

theorem ppv_step_divider (opj : Option J) :
    parsePayloadValue "divider" opj =
  (match parseDictDefault "divider" opj with
| .ok d => .ok (.divider d)
| .error e => .error e) := by
  unfold parsePayloadValue
  rfl

theorem ppv_step_embed (opj : Option J) :
    parsePayloadValue "embed" opj =
  (match opj with
| some (.str s) => .ok (.embed s)
| _ => .error (.validationError "embed")) := by
  unfold parsePayloadValue
  rfl

theorem ppv_step_equation (opj : Option J) :
    parsePayloadValue "equation" opj =
  (match opj with
| some (.obj pkvs) =>
  match parseStrField "expression" (jget pkvs "expression") with
  | .ok ex => .ok (.equation ex)
  | .error e => .error e
| _ => .error (.validationError "equation")) := by
  unfold parsePayloadValue
  rfl

theorem ppv_step_file (opj : Option J) :
    parsePayloadValue "file" opj =
  (match parseFileField "file" opj with
| .ok f => .ok (.file f)
| .error e => .error e) := by
  unfold parsePayloadValue
  rfl

theorem ppv_step_heading_2 (opj : Option J) :
    parsePayloadValue "heading_2" opj =
  (match parseHeadingData opj with
| .ok (rt, c, tg) => .ok (.heading_2 rt c tg)
| .error e => .error e) := by
  unfold parsePayloadValue
  rfl

theorem ppv_step_heading_3 (opj : Option J) :
    parsePayloadValue "heading_3" opj =
  (match parseHeadingData opj with
| .ok (rt, c, tg) => .ok (.heading_3 rt c tg)
| .error e => .error e) := by
  unfold parsePayloadValue
  rfl

theorem ppv_step_image (opj : Option J) :
    parsePayloadValue "image" opj =
  (match opj with
| some (.obj pkvs) =>
  match parseFileField "file" (jget pkvs "file") with
  | .ok f => .ok (.image f)
  | .error e => .error e
| _ => .error (.validationError "image")) := by
  unfold parsePayloadValue
  rfl

theorem ppv_step_link_preview (opj : Option J) :
    parsePayloadValue "link_preview" opj =
  (match opj with
| some (.str s) => .ok (.link_preview s)
| _ => .error (.validationError "link_preview")) := by
  unfold parsePayloadValue
  rfl

theorem ppv_step_numbered_list_item (opj : Option J) :
    parsePayloadValue "numbered_list_item" opj =
  (match opj with
| some (.obj pkvs) =>
  match parseTextChildren pkvs with
  | .ok (rt, c, ch) => .ok (.numbered_list_item rt c ch)
  | .error e => .error e
| _ => .error (.validationError "numbered_list_item")) := by
  unfold parsePayloadValue
  rfl

theorem ppv_step_paragraph (opj : Option J) :
    parsePayloadValue "paragraph" opj =
  (match opj with
| some (.obj pkvs) =>
  match parseTextChildren pkvs with
  | .ok (rt, c, ch) => .ok (.paragraph rt c ch)
  | .error e => .error e
| _ => .error (.validationError "paragraph")) := by
  unfold parsePayloadValue
  rfl

theorem ppv_step_quote (opj : Option J) :
    parsePayloadValue "quote" opj =
  (match opj with
| some (.obj pkvs) =>
  match parseTextChildren pkvs with
  | .ok (rt, c, ch) => .ok (.quote rt c ch)
  | .error e => .error e
| _ => .error (.validationError "quote")) := by
  unfold parsePayloadValue
  rfl

theorem ppv_step_synced_block (opj : Option J) :
    parsePayloadValue "synced_block" opj =
  (match opj with
| some (.obj pkvs) =>
  match parseSyncedFrom (jget pkvs "synced_from") with
  | .error e => .error e
  | .ok sf =>
    match parseChildrenInPkvs pkvs with
    | .ok ch => .ok (.synced_block sf ch)
    | .error e => .error e
| _ => .error (.validationError "synced_block")) := by
  unfold parsePayloadValue
  rfl

theorem ppv_step_table (opj : Option J) :
    parsePayloadValue "table" opj =
  (match opj with
| some (.obj pkvs) =>
  match parseIntField "table_width" (jget pkvs "table_width") with
  | .error e => .error e
  | .ok w =>
    match parseBoolRequired "has_column_header" (jget pkvs "has_column_header") with
    | .error e => .error e
    | .ok hch =>
      match parseBoolRequired "has_row_header" (jget pkvs "has_row_header") with
      | .error e => .error e
      | .ok hrh => .ok (.table w hch hrh)
| _ => .error (.validationError "table")) := by
  unfold parsePayloadValue
  rfl

theorem ppv_step_table_row (opj : Option J) :
    parsePayloadValue "table_row" opj =
  (match opj with
| some (.obj pkvs) =>
  match parseCellsField (jget pkvs "cells") with
  | .ok cs => .ok (.table_row cs)
  | .error e => .error e
| _ => .error (.validationError "table_row")) := by
  unfold parsePayloadValue
  rfl

theorem ppv_step_to_do (opj : Option J) :
    parsePayloadValue "to_do" opj =
  (match opj with
| some (.obj pkvs) =>
  match parseBoolField "checked" false (jget pkvs "checked") with
  | .error e => .error e
  | .ok chk =>
    match parseTextChildren pkvs with
    | .ok (rt, c, ch) => .ok (.to_do rt chk c ch)
    | .error e => .error e
| _ => .error (.validationError "to_do")) := by
  unfold parsePayloadValue
  rfl

theorem ppv_step_toggle (opj : Option J) :
    parsePayloadValue "toggle" opj =
  (match opj with
| some (.obj pkvs) =>
  match parseTextChildren pkvs with
  | .ok (rt, c, ch) => .ok (.toggle rt c ch)
  | .error e => .error e
| _ => .error (.validationError "toggle")) := by
  unfold parsePayloadValue
  rfl

theorem ppv_step_video (opj : Option J) :
    parsePayloadValue "video" opj =
  (match opj with
| some (.obj pkvs) =>
  match parseFileField "file" (jget pkvs "file") with
  | .ok f => .ok (.video f)
  | .error e => .error e
| _ => .error (.validationError "video")) := by
  unfold parsePayloadValue
  rfl

mutual
/-- Fuel-bounded executable mirror of `parseChildNodeJ`; `none` means the
fuel ran out, `some r` means the real parser returns `r`
(`parseF_correct`).  Structural recursion on the fuel keeps this
kernel-computable for concrete inputs. -/
def parseChildNodeF : Nat → J → Option (Except Err Node)
  | 0, _ => none
  | fuel + 1, j =>
    match j with
    | .obj kvs =>
      match effTag kvs with
      | .error e => some (.error e)
      | .ok tag =>
        if registryTags.contains tag then
          match parseEnvelope kvs with
          | .error e => some (.error e)
          | .ok env =>
            match parsePayloadValueF fuel tag (jget kvs (payloadKey tag)) with
            | none => none
            | some (.error e) => some (.error e)
            | some (.ok p) => some (.ok (.mk env p))
        else some (.error (.unknownVariant tag))
    | _ => some (.error .typeError)

/-- Fuel-bounded mirror of `parsePayloadValue`: non-recursive branches are
copied verbatim (wrapped in `some`), recursive branches call the fueled
children parsers. -/
def parsePayloadValueF : Nat → String → Option J → Option (Except Err Payload)
  | 0, _, _ => none
  | fuel + 1, tag, opj =>
    match tag with
    | "bookmark" =>
      some
      (match opj with
       | some (.obj pkvs) =>
         match parseStrField "url" (jget pkvs "url"),
               parseRichTextField "caption" (jget pkvs "caption") with
         | .ok u, .ok cap => .ok (.bookmark u cap)
         | .error e, _ => .error e
         | _, .error e => .error e
       | _ => .error (.validationError "bookmark"))
    | "breadcrumb" =>
      some
      (match parseDictDefault "breadcrumb" opj with
       | .ok d => .ok (.breadcrumb d)
       | .error e => .error e)
    | "bulleted_list_item" =>
      some
      (match opj with
       | some (.arr xs) => .ok (.bulleted_list_item (.arr xs))
       | _ => .error (.validationError "bulleted_list_item"))
    | "callout" =>
      some
      (match opj with
       | some (.obj pkvs) =>
         match parseRichTextField "rich_text" (jget pkvs "rich_text") with
         | .error e => .error e
         | .ok rt =>
           match parseOptStrField "icon" (jget pkvs "icon") with
           | .error e => .error e
           | .ok ic =>
             match parseColorField (jget pkvs "color") with
             | .error e => .error e
             | .ok c => .ok (.callout rt ic c)
       | _ => .error (.validationError "callout"))
    | "child_database" =>
      some
      (match opj with
       | some (.obj pkvs) =>
         match parseStrField "title" (jget pkvs "title") with
         | .ok t => .ok (.child_database t)
         | .error e => .error e
       | _ => .error (.validationError "child_database"))
    | "child_page" =>
      some
      (match opj with
       | some (.obj pkvs) =>
         match parseStrField "title" (jget pkvs "title") with
         | .ok t => .ok (.child_page t)
         | .error e => .error e
       | _ => .error (.validationError "child_page"))
    | "code" =>
      some
      (match opj with
       | some (.obj pkvs) =>
         match parseRichTextField "caption" (jget pkvs "caption") with
         | .error e => .error e
         | .ok cap =>
           match parseRichTextField "rich_text" (jget pkvs "rich_text") with
           | .error e => .error e
           | .ok rt =>
             match parseStrField "language" (jget pkvs "language") with
             | .error e => .error e
             | .ok lang => .ok (.code cap rt lang)
       | _ => .error (.validationError "code"))
    | "column_list" =>
      some
      (match parseDictDefault "column_list" opj with
       | .ok d => .ok (.column_list d)
       | .error e => .error e)
    | "column" =>
      some
      (match parseDictDefault "column" opj with
       | .ok d => .ok (.column d)
       | .error e => .error e)
    | "heading_1" =>
      some
      (match parseHeadingData opj with
       | .ok (rt, c, tg) => .ok (.heading_1 rt c tg)
       | .error e => .error e)
    | "divider" =>
      some
      (match parseDictDefault "divider" opj with
       | .ok d => .ok (.divider d)
       | .error e => .error e)
    | "embed" =>
      some
      (match opj with
       | some (.str s) => .ok (.embed s)
       | _ => .error (.validationError "embed"))
    | "equation" =>
      some
      (match opj with
       | some (.obj pkvs) =>
         match parseStrField "expression" (jget pkvs "expression") with
         | .ok ex => .ok (.equation ex)
         | .error e => .error e
       | _ => .error (.validationError "equation"))
    | "file" =>
      some
      (match parseFileField "file" opj with
       | .ok f => .ok (.file f)
       | .error e => .error e)
    | "heading_2" =>
      some
      (match parseHeadingData opj with
       | .ok (rt, c, tg) => .ok (.heading_2 rt c tg)
       | .error e => .error e)
    | "heading_3" =>
      some
      (match parseHeadingData opj with
       | .ok (rt, c, tg) => .ok (.heading_3 rt c tg)
       | .error e => .error e)
    | "image" =>
      some
      (match opj with
       | some (.obj pkvs) =>
         match parseFileField "file" (jget pkvs "file") with
         | .ok f => .ok (.image f)
         | .error e => .error e
       | _ => .error (.validationError "image"))
    | "link_preview" =>
      some
      (match opj with
       | some (.str s) => .ok (.link_preview s)
       | _ => .error (.validationError "link_preview"))
    | "numbered_list_item" =>
      match opj with
      | some (.obj pkvs) =>
        match parseTextChildrenF fuel pkvs with
        | none => none
        | some (.ok (rt, c, ch)) => some (.ok (.numbered_list_item rt c ch))
        | some (.error e) => some (.error e)
      | _ => some (.error (.validationError "numbered_list_item"))
    | "paragraph" =>
      match opj with
      | some (.obj pkvs) =>
        match parseTextChildrenF fuel pkvs with
        | none => none
        | some (.ok (rt, c, ch)) => some (.ok (.paragraph rt c ch))
        | some (.error e) => some (.error e)
      | _ => some (.error (.validationError "paragraph"))
    | "quote" =>
      match opj with
      | some (.obj pkvs) =>
        match parseTextChildrenF fuel pkvs with
        | none => none
        | some (.ok (rt, c, ch)) => some (.ok (.quote rt c ch))
        | some (.error e) => some (.error e)
      | _ => some (.error (.validationError "quote"))
    | "synced_block" =>
      match opj with
      | some (.obj pkvs) =>
        match parseSyncedFrom (jget pkvs "synced_from") with
        | .error e => some (.error e)
        | .ok sf =>
          match parseChildrenInPkvsF fuel pkvs with
          | none => none
          | some (.ok ch) => some (.ok (.synced_block sf ch))
          | some (.error e) => some (.error e)
      | _ => some (.error (.validationError "synced_block"))
    | "table" =>
      some
      (match opj with
       | some (.obj pkvs) =>
         match parseIntField "table_width" (jget pkvs "table_width") with
         | .error e => .error e
         | .ok w =>
           match parseBoolRequired "has_column_header" (jget pkvs "has_column_header") with
           | .error e => .error e
           | .ok hch =>
             match parseBoolRequired "has_row_header" (jget pkvs "has_row_header") with
             | .error e => .error e
             | .ok hrh => .ok (.table w hch hrh)
       | _ => .error (.validationError "table"))
    | "table_row" =>
      some
      (match opj with
       | some (.obj pkvs) =>
         match parseCellsField (jget pkvs "cells") with
         | .ok cs => .ok (.table_row cs)
         | .error e => .error e
       | _ => .error (.validationError "table_row"))
    | "to_do" =>
      match opj with
      | some (.obj pkvs) =>
        match parseBoolField "checked" false (jget pkvs "checked") with
        | .error e => some (.error e)
        | .ok chk =>
          match parseTextChildrenF fuel pkvs with
          | none => none
          | some (.ok (rt, c, ch)) => some (.ok (.to_do rt chk c ch))
          | some (.error e) => some (.error e)
      | _ => some (.error (.validationError "to_do"))
    | "toggle" =>
      match opj with
      | some (.obj pkvs) =>
        match parseTextChildrenF fuel pkvs with
        | none => none
        | some (.ok (rt, c, ch)) => some (.ok (.toggle rt c ch))
        | some (.error e) => some (.error e)
      | _ => some (.error (.validationError "toggle"))
    | "video" =>
      some
      (match opj with
       | some (.obj pkvs) =>
         match parseFileField "file" (jget pkvs "file") with
         | .ok f => .ok (.video f)
         | .error e => .error e
       | _ => .error (.validationError "video"))
    | t => some (.error (.unknownVariant t))

/-- Fuel-bounded mirror of `parseTextChildren`. -/
def parseTextChildrenF : Nat → List (String × J) →
    Option (Except Err (J × String × Option (List Node)))
  | 0, _ => none
  | fuel + 1, pkvs =>
    match parseRichTextField "rich_text" (jget pkvs "rich_text") with
    | .error e => some (.error e)
    | .ok rt =>
      match parseColorField (jget pkvs "color") with
      | .error e => some (.error e)
      | .ok c =>
        match jget pkvs "children" with
        | none => some (.ok (rt, c, none))
        | some .null => some (.ok (rt, c, none))
        | some (.arr js) =>
          match parseChildListF fuel js with
          | none => none
          | some (.ok ns) => some (.ok (rt, c, some ns))
          | some (.error e) => some (.error e)
        | some _ => some (.error (.validationError "children"))

/-- Fuel-bounded mirror of `parseChildrenInPkvs`. -/
def parseChildrenInPkvsF : Nat → List (String × J) →
    Option (Except Err (Option (List Node)))
  | 0, _ => none
  | fuel + 1, pkvs =>
    match jget pkvs "children" with
    | none => some (.ok none)
    | some .null => some (.ok none)
    | some (.arr js) =>
      match parseChildListF fuel js with
      | none => none
      | some (.ok ns) => some (.ok (some ns))
      | some (.error e) => some (.error e)
    | some _ => some (.error (.validationError "children"))

/-- Fuel-bounded mirror of `parseChildList`. -/
def parseChildListF : Nat → List J → Option (Except Err (List Node))
  | 0, _ => none
  | _ + 1, [] => some (.ok [])
  | fuel + 1, j :: rest =>
    match parseChildNodeF fuel j with
    | none => none
    | some (.error e) => some (.error e)
    | some (.ok n) =>
      match parseChildListF fuel rest with
      | none => none
      | some (.error e) => some (.error e)
      | some (.ok ns) => some (.ok (n :: ns))
end

/-- Fuel-bounded mirror of `parseBlock`. -/
def parseBlockF (fuel : Nat) (j : J) : Option (Except Err Node) :=
  match j with
  | .obj kvs =>
    if hasKey kvs "type" then parseChildNodeF fuel j
    else some (.error .unionTagNotFound)
  | _ => some (.error (.validationError "block"))

set_option maxHeartbeats 1600000 in
/-- A `some` answer of the fueled mirror agrees with the real parsers. -/
theorem parseF_correct : ∀ fuel : Nat,
    (∀ j r, parseChildNodeF fuel j = some r → parseChildNodeJ j = r) ∧
    (∀ tag opj r, parsePayloadValueF fuel tag opj = some r →
      parsePayloadValue tag opj = r) ∧
    (∀ pkvs r, parseTextChildrenF fuel pkvs = some r →
      parseTextChildren pkvs = r) ∧
    (∀ pkvs r, parseChildrenInPkvsF fuel pkvs = some r →
      parseChildrenInPkvs pkvs = r) ∧
    (∀ js r, parseChildListF fuel js = some r → parseChildList js = r) := by
  intro fuel
  induction fuel with
  | zero =>
    refine ⟨?_, ?_, ?_, ?_, ?_⟩
    · intro j r h; exact Option.noConfusion h
    · intro tag opj r h; exact Option.noConfusion h
    · intro pkvs r h; exact Option.noConfusion h
    · intro pkvs r h; exact Option.noConfusion h
    · intro js r h; exact Option.noConfusion h
  | succ fuel IH =>
    obtain ⟨IH1, IH2, IH3, IH4, IH5⟩ := IH
    refine ⟨?_, ?_, ?_, ?_, ?_⟩
    · intro j r h
      rcases j with _ | b | m | s | xs | kvs
      · unfold parseChildNodeF at h; dsimp only at h; cases h
        exact parseChildNodeJ_nonobj_null
      · unfold parseChildNodeF at h; dsimp only at h; cases h
        exact parseChildNodeJ_nonobj_bool b
      · unfold parseChildNodeF at h; dsimp only at h; cases h
        exact parseChildNodeJ_nonobj_num m
      · unfold parseChildNodeF at h; dsimp only at h; cases h
        exact parseChildNodeJ_nonobj_str s
      · unfold parseChildNodeF at h; dsimp only at h; cases h
        exact parseChildNodeJ_nonobj_arr xs
      · unfold parseChildNodeF at h
        dsimp only at h
        rw [parseChildNodeJ_step]
        rcases het : effTag kvs with e | tag <;> rw [het] at h <;> dsimp only at h ⊢
        · cases h; rfl
        · by_cases hct : registryTags.contains tag = true
          · rw [if_pos hct] at h ⊢
            rcases henv : parseEnvelope kvs with e | env <;> rw [henv] at h <;>
              dsimp only at h ⊢
            · cases h; rfl
            ·
              rcases hpf : parsePayloadValueF fuel tag (jget kvs (payloadKey tag)) with
                _ | pr <;> rw [hpf] at h
              · exact Option.noConfusion h
              · rw [IH2 _ _ _ hpf]
                rcases pr with e | p <;> dsimp only at h <;> cases h <;> rfl
          · rw [if_neg hct] at h ⊢
            cases h; rfl
    · intro tag opj r h
      unfold parsePayloadValueF at h
      split at h
      case _ => -- bookmark
        cases h; exact ppv_step_bookmark opj
      case _ =>
        cases h; exact ppv_step_breadcrumb opj
      case _ =>
        cases h; exact ppv_step_bulleted_list_item opj
      case _ =>
        cases h; exact ppv_step_callout opj
      case _ =>
        cases h; exact ppv_step_child_database opj
      case _ =>
        cases h; exact ppv_step_child_page opj
      case _ =>
        cases h; exact ppv_step_code opj
      case _ =>
        cases h; exact ppv_step_column_list opj
      case _ =>
        cases h; exact ppv_step_column opj
      case _ =>
        cases h; exact ppv_step_heading_1 opj
      case _ =>
        cases h; exact ppv_step_divider opj
      case _ =>
        cases h; exact ppv_step_embed opj
      case _ =>
        cases h; exact ppv_step_equation opj
      case _ =>
        cases h; exact ppv_step_file opj
      case _ =>
        cases h; exact ppv_step_heading_2 opj
      case _ =>
        cases h; exact ppv_step_heading_3 opj
      case _ =>
        cases h; exact ppv_step_image opj
      case _ =>
        cases h; exact ppv_step_link_preview opj
      case _ => -- numbered_list_item (recursive)
        rw [ppv_step_numbered_list_item]
        rcases opj with _ | (_ | b | m | s | xs | pkvs) <;> try (cases h; rfl)
        dsimp only at h ⊢
        rcases htf : parseTextChildrenF fuel pkvs with _ | tr <;> rw [htf] at h
        · exact Option.noConfusion h
        · rw [IH3 _ _ htf]
          rcases tr with e | ⟨rt, c, ch⟩ <;> dsimp only at h <;> cases h <;> rfl
      case _ => -- paragraph
        rw [ppv_step_paragraph]
        rcases opj with _ | (_ | b | m | s | xs | pkvs) <;> try (cases h; rfl)
        dsimp only at h ⊢
        rcases htf : parseTextChildrenF fuel pkvs with _ | tr <;> rw [htf] at h
        · exact Option.noConfusion h
        · rw [IH3 _ _ htf]
          rcases tr with e | ⟨rt, c, ch⟩ <;> dsimp only at h <;> cases h <;> rfl
      case _ => -- quote
        rw [ppv_step_quote]
        rcases opj with _ | (_ | b | m | s | xs | pkvs) <;> try (cases h; rfl)
        dsimp only at h ⊢
        rcases htf : parseTextChildrenF fuel pkvs with _ | tr <;> rw [htf] at h
        · exact Option.noConfusion h
        · rw [IH3 _ _ htf]
          rcases tr with e | ⟨rt, c, ch⟩ <;> dsimp only at h <;> cases h <;> rfl
      case _ => -- synced_block
        rw [ppv_step_synced_block]
        rcases opj with _ | (_ | b | m | s | xs | pkvs) <;> try (cases h; rfl)
        dsimp only at h ⊢
        rcases hsf : parseSyncedFrom (jget pkvs "synced_from") with e | sf <;>
          rw [hsf] at h
        · dsimp only at h; cases h; rfl
        · dsimp only at h ⊢
          rcases hcf : parseChildrenInPkvsF fuel pkvs with _ | cr <;> rw [hcf] at h
          · exact Option.noConfusion h
          · rw [IH4 _ _ hcf]
            rcases cr with e | ch <;> dsimp only at h <;> cases h <;> rfl
      case _ =>
        cases h; exact ppv_step_table opj
      case _ =>
        cases h; exact ppv_step_table_row opj
      case _ => -- to_do
        rw [ppv_step_to_do]
        rcases opj with _ | (_ | b | m | s | xs | pkvs) <;> try (cases h; rfl)
        dsimp only at h ⊢
        rcases hb : parseBoolField "checked" false (jget pkvs "checked") with e | chk <;>
          rw [hb] at h
        · dsimp only at h; cases h; rfl
        · dsimp only at h ⊢
          rcases htf : parseTextChildrenF fuel pkvs with _ | tr <;> rw [htf] at h
          · exact Option.noConfusion h
          · rw [IH3 _ _ htf]
            rcases tr with e | ⟨rt, c, ch⟩ <;> dsimp only at h <;> cases h <;> rfl
      case _ => -- toggle
        rw [ppv_step_toggle]
        rcases opj with _ | (_ | b | m | s | xs | pkvs) <;> try (cases h; rfl)
        dsimp only at h ⊢
        rcases htf : parseTextChildrenF fuel pkvs with _ | tr <;> rw [htf] at h
        · exact Option.noConfusion h
        · rw [IH3 _ _ htf]
          rcases tr with e | ⟨rt, c, ch⟩ <;> dsimp only at h <;> cases h <;> rfl
      case _ =>
        cases h; exact ppv_step_video opj
      case _ => -- catch-all: tag not in the registry
        cases h
        unfold parsePayloadValue
        split
        all_goals simp_all
    · intro pkvs r h
      unfold parseTextChildrenF at h
      rw [parseTextChildren_step]
      rcases h1 : parseRichTextField "rich_text" (jget pkvs "rich_text") with e | rt <;>
        rw [h1] at h
      · dsimp only at h; cases h; rfl
      · dsimp only at h ⊢
        rcases h2 : parseColorField (jget pkvs "color") with e | c <;> rw [h2] at h
        · dsimp only at h; cases h; rfl
        · dsimp only at h ⊢
          rcases h3 : jget pkvs "children" with _ | cv <;> rw [h3] at h
          · dsimp only at h; cases h; rfl
          · rcases cv with _ | b | m | s | js | okvs <;> dsimp only at h ⊢
            · cases h; rfl
            · cases h; rfl
            · cases h; rfl
            · cases h; rfl
            · rcases hcl : parseChildListF fuel js with _ | cr <;> rw [hcl] at h
              · exact Option.noConfusion h
              · rw [IH5 _ _ hcl]
                rcases cr with e | ns <;> dsimp only at h <;> cases h <;> rfl
            · cases h; rfl
    · intro pkvs r h
      unfold parseChildrenInPkvsF at h
      rw [parseChildrenInPkvs_step]
      rcases h3 : jget pkvs "children" with _ | cv <;> rw [h3] at h
      · dsimp only at h; cases h; rfl
      · rcases cv with _ | b | m | s | js | okvs <;> dsimp only at h ⊢
        · cases h; rfl
        · cases h; rfl
        · cases h; rfl
        · cases h; rfl
        · rcases hcl : parseChildListF fuel js with _ | cr <;> rw [hcl] at h
          · exact Option.noConfusion h
          · rw [IH5 _ _ hcl]
            rcases cr with e | ns <;> dsimp only at h <;> cases h <;> rfl
        · cases h; rfl
    · intro js r h
      rcases js with _ | ⟨j, rest⟩
      · unfold parseChildListF at h
        rw [parseChildList_nil]
        cases h; rfl
      · unfold parseChildListF at h
        rw [parseChildList_cons]
        rcases hn : parseChildNodeF fuel j with _ | nr <;> rw [hn] at h
        · exact Option.noConfusion h
        · rw [IH1 _ _ hn]
          rcases nr with e | n <;> dsimp only at h ⊢
          · cases h; rfl
          · rcases hl : parseChildListF fuel rest with _ | lr <;> rw [hl] at h
            · exact Option.noConfusion h
            · rw [IH5 _ _ hl]
              rcases lr with e | ns <;> dsimp only at h <;> cases h <;> rfl

theorem parseChildNodeF_correct (fuel : Nat) (j : J) (r : Except Err Node)
    (h : parseChildNodeF fuel j = some r) : parseChildNodeJ j = r :=
  (parseF_correct fuel).1 j r h

theorem parseChildListF_correct (fuel : Nat) (js : List J) (r : Except Err (List Node))
    (h : parseChildListF fuel js = some r) : parseChildList js = r :=
  (parseF_correct fuel).2.2.2.2 js r h

/-- A `some` answer of the fueled `parseBlockF` agrees with `parseBlock`. -/
theorem parseBlockF_correct (fuel : Nat) (j : J) (r : Except Err Node)
    (h : parseBlockF fuel j = some r) : parseBlock j = r := by
  unfold parseBlockF at h
  unfold parseBlock
  rcases j with _ | b | m | s | xs | kvs
  all_goals dsimp only at h ⊢
  all_goals try (cases h; rfl)
  by_cases hk : hasKey kvs "type" = true
  · rw [if_pos hk] at h ⊢
    exact (parseF_correct fuel).1 _ _ h
  · rw [if_neg hk] at h ⊢
    cases h; rfl

/-- A successful top-level parse is a successful child parse (the adapter
only adds the `type`-presence check). -/
theorem parseBlock_ok_child (j : J) (n : Node) (h : parseBlock j = .ok n) :
    parseChildNodeJ j = .ok n := by
  unfold parseBlock at h
  rcases j with _ | b | m | s | xs | kvs
  all_goals dsimp only at h
  all_goals try cases h
  by_cases hk : hasKey kvs "type" = true
  · rw [if_pos hk] at h; exact h
  · rw [if_neg hk] at h; cases h

/-- Serialized nodes always carry a `type` key, so the top-level adapter
defers to the child parser on them. -/
theorem parseBlock_serializeNode (n : Node) :
    parseBlock (serializeNode n) = parseChildNodeJ (serializeNode n) := by
  obtain ⟨e, p⟩ := n
  show parseBlock (J.obj (serializeEnvelope e ++
      [("type", J.str (payloadTag p)), (payloadKey (payloadTag p), serializePayloadJ p)])) = _
  unfold parseBlock
  have hk : hasKey (serializeEnvelope e ++
      [("type", J.str (payloadTag p)), (payloadKey (payloadTag p), serializePayloadJ p)])
      "type" = true := by
    unfold hasKey
    rw [jget_senv_skip e _ type_not_env]
    rfl
  dsimp only
  rw [if_pos hk]
  rfl

/-- The envelope every minimal raw object parses to: `object` marker absent,
all optional fields absent, the three flags at their defaults. -/
def env0 : Envelope :=
  ⟨false, none, none, none, none, none, none, false, false, false, none⟩

/-- The microsecond field of a node's parsed `created_time`. -/
def nodeCreatedMicro : Node → Option Nat
  | .mk e _ => e.created_time.map fun d => d.micro

/-- The entry list of a serialized node (serialization always yields an
object). -/
def serializedKvs (n : Node) : List (String × J) :=
  match serializeNode n with
  | .obj kvs => kvs
  | _ => []

/-- A minimal valid raw payload value for each registry tag, paired with the
payload it parses to. -/
def minPayloadRaw : String → J
  | "bookmark" => .obj [("url", .str "u"), ("caption", .arr [])]
  | "breadcrumb" => .obj []
  | "bulleted_list_item" => .arr []
  | "callout" => .obj [("rich_text", .arr [])]
  | "child_database" => .obj [("title", .str "t")]
  | "child_page" => .obj [("title", .str "t")]
  | "code" => .obj [("caption", .arr []), ("rich_text", .arr []),
      ("language", .str "python")]
  | "column_list" => .obj []
  | "column" => .obj []
  | "heading_1" => .obj [("rich_text", .arr [])]
  | "divider" => .obj []
  | "embed" => .str "u"
  | "equation" => .obj [("expression", .str "e")]
  | "file" => .obj []
  | "heading_2" => .obj [("rich_text", .arr [])]
  | "heading_3" => .obj [("rich_text", .arr [])]
  | "image" => .obj [("file", .obj [])]
  | "link_preview" => .str "u"
  | "numbered_list_item" => .obj [("rich_text", .arr [])]
  | "paragraph" => .obj [("rich_text", .arr [])]
  | "quote" => .obj [("rich_text", .arr [])]
  | "synced_block" => .obj [("synced_from", .null)]
  | "table" => .obj [("table_width", .num 1), ("has_column_header", .bool false),
      ("has_row_header", .bool false)]
  | "table_row" => .obj [("cells", .arr [])]
  | "to_do" => .obj [("rich_text", .arr [])]
  | "toggle" => .obj [("rich_text", .arr [])]
  | "video" => .obj [("file", .obj [])]
  | _ => .null

/-- The minimal valid raw object of a registry tag: an explicit `type` and
the payload under the variant's attribute name. -/
def minRaw (tag : String) : J :=
  .obj [("type", .str tag), (payloadKey tag, minPayloadRaw tag)]

/-- The payload each minimal raw object parses to. -/
def minPayload : String → Payload
  | "bookmark" => .bookmark "u" (.arr [])
  | "breadcrumb" => .breadcrumb []
  | "bulleted_list_item" => .bulleted_list_item (.arr [])
  | "callout" => .callout (.arr []) none "default"
  | "child_database" => .child_database "t"
  | "child_page" => .child_page "t"
  | "code" => .code (.arr []) (.arr []) "python"
  | "column_list" => .column_list []
  | "column" => .column []
  | "heading_1" => .heading_1 (.arr []) "default" false
  | "divider" => .divider []
  | "embed" => .embed "u"
  | "equation" => .equation "e"
  | "file" => .file (.obj [])
  | "heading_2" => .heading_2 (.arr []) "default" false
  | "heading_3" => .heading_3 (.arr []) "default" false
  | "image" => .image (.obj [])
  | "link_preview" => .link_preview "u"
  | "numbered_list_item" => .numbered_list_item (.arr []) "default" none
  | "paragraph" => .paragraph (.arr []) "default" none
  | "quote" => .quote (.arr []) "default" none
  | "synced_block" => .synced_block none none
  | "table" => .table 1 false false
  | "table_row" => .table_row []
  | "to_do" => .to_do (.arr []) false "default" none
  | "toggle" => .toggle (.arr []) "default" none
  | "video" => .video (.obj [])
  | _ => .divider []

/-- A raw node without `type` whose first key is the envelope field
`object`: the spec predicts inference from the single extra key
(`paragraph`); the code takes the first key. -/
def c1raw : J :=
  .obj [("object", .str "block"), ("paragraph", .obj [("rich_text", .arr [])])]

/-- A valid `divider` raw whose `created_time` carries fractional seconds. -/
def c2frac : J :=
  .obj [("type", .str "divider"),
    ("created_time", .str "2021-05-14T10:00:00.123Z"), ("divider", .obj [])]

/-- The node `c2frac` parses to (microseconds kept in the model). -/
def c2fracNode : Node :=
  .mk ⟨false, none, none, some ⟨2021, 5, 14, 10, 0, 0, 123000, some 0⟩, none,
    none, none, false, false, false, none⟩ (.divider [])

/-- The node re-parsing the serialization of `c2fracNode` yields: the
fractional seconds are gone. -/
def c2fracNode2 : Node :=
  .mk ⟨false, none, none, some ⟨2021, 5, 14, 10, 0, 0, 0, some 0⟩, none,
    none, none, false, false, false, none⟩ (.divider [])

/-- A valid `synced_block` raw with an explicit `synced_from: null`. -/
def c2sync : J :=
  .obj [("type", .str "synced_block"),
    ("synced_block", .obj [("synced_from", .null)])]

/-- The node `c2sync` parses to. -/
def c2syncNode : Node := .mk env0 (.synced_block none none)

/-- A type-less raw with two extra keys: the first (`paragraph`) wins. -/
def c3two : J :=
  .obj [("paragraph", .obj [("rich_text", .arr [])]),
    ("quote", .obj [("rich_text", .arr [])])]

/-- A three-level raw tree: a paragraph with two children, the first of
which holds a nested `bulleted_list_item`. -/
def c6raw : J :=
  .obj [("type", .str "paragraph"),
    ("paragraph", .obj [("rich_text", .arr []),
      ("children", .arr [
        .obj [("paragraph", .obj [("rich_text", .arr []),
          ("children", .arr [.obj [("bulleted_list_item", .arr [])]])])],
        .obj [("divider", .obj [])]])])]

/-- The typed tree `c6raw` parses to, children in input order. -/
def c6tree : Node :=
  .mk env0 (.paragraph (.arr []) "default" (some [
    .mk env0 (.paragraph (.arr []) "default" (some [
      .mk env0 (.bulleted_list_item (.arr []))])),
    .mk env0 (.divider [])]))

/-- A paragraph raw with no `children` key at all. -/
def c6noChildren : J :=
  .obj [("type", .str "paragraph"), ("paragraph", .obj [("rich_text", .arr [])])]

/-- A paragraph raw with an explicitly empty `children` array. -/
def c6emptyChildren : J :=
  .obj [("type", .str "paragraph"),
    ("paragraph", .obj [("rich_text", .arr []), ("children", .arr [])])]

/-- A serialized `link_preview` node, for inspecting the emitted key. -/
def c5lpNode : Node := .mk env0 (.link_preview "u")

/-- Divider raws for the timestamp canonicalization pair. -/
def c9fracRaw : J :=
  .obj [("type", .str "divider"),
    ("created_time", .str "2021-05-14T10:00:00.000Z"), ("divider", .obj [])]

def c9plainRaw : J :=
  .obj [("type", .str "divider"),
    ("created_time", .str "2021-05-14T10:00:00Z"), ("divider", .obj [])]

/-- The nodes the two canonicalization inputs parse to. -/
def c9fracNode : Node :=
  .mk ⟨false, none, none, some ⟨2021, 5, 14, 10, 0, 0, 0, some 0⟩, none,
    none, none, false, false, false, none⟩ (.divider [])

def c9plainNode : Node := c9fracNode

/-- C1: the spec says a type-less mapping dispatches on its single
non-envelope key; the code dispatches on the FIRST key of the mapping.
Amended statement: inference takes the first key, and a child raw whose
first key is its payload key parses to that variant. -/
theorem c1_first_key_inference :
    (∀ (k : String) (v : J) (rest : List (String × J)),
      jget ((k, v) :: rest) "type" = none → effTag ((k, v) :: rest) = .ok k) ∧
    parseChildNodeJ (J.obj [("paragraph", J.obj [("rich_text", J.arr [])])]) =
      .ok (.mk env0 (.paragraph (.arr []) "default" none)) := by
  constructor
  · intro k v rest h
    unfold effTag hasKey
    rw [h]
    rfl
  · exact (parseF_correct 8).1 _ _ rfl

theorem c1_first_key_inference_witness :
    effTag [("paragraph", J.obj [("rich_text", J.arr [])])] = .ok "paragraph" :=
  c1_first_key_inference.1 "paragraph" (J.obj [("rich_text", J.arr [])]) [] rfl

/-- C1 counterexample: `c1raw` lacks `type`, its single non-envelope key is
`paragraph`, yet parsing dispatches on the first key `object` and fails
with an unknown-variant error instead of yielding the paragraph variant. -/
theorem c1_counterexample :
    jget [("object", J.str "block"),
        ("paragraph", J.obj [("rich_text", J.arr [])])] "type" = none ∧
    "object" ∈ envKeys ∧ ¬ "paragraph" ∈ envKeys ∧
    parseChildNodeJ c1raw = .error (.unknownVariant "object") := by
  refine ⟨rfl, by decide, by decide, ?_⟩
  exact (parseF_correct 8).1 _ _ rfl

/-- C2: round trip holds for safe nodes (no fractional seconds, no erased
`synced_from: null`).  Amended statement: parse-serialize-reparse is the
identity on nodes satisfying `nodeSafe`; fractional seconds and a null
`synced_from` break it (see the counterexample). -/
theorem c2_roundtrip_safe (j : J) (n : Node) (hp : parseBlock j = .ok n)
    (hs : nodeSafe n = true) : parseBlock (serializeNode n) = .ok n := by
  rw [parseBlock_serializeNode]
  exact (reparse_main (sizeOf n)).1 (le_refl _)
    (parseChildNodeJ_wf (parseBlock_ok_child j n hp)) hs

theorem c2_roundtrip_safe_witness :
    parseBlock (serializeNode (.mk env0 (.divider []))) =
      .ok (.mk env0 (.divider [])) :=
  c2_roundtrip_safe (minRaw "divider") (.mk env0 (.divider []))
    (parseBlockF_correct 4 (minRaw "divider") (.ok (.mk env0 (.divider []))) rfl) rfl

/-- C2 counterexample: fractional seconds are lost (the reparse differs in
the microsecond field), and a `synced_block` with `synced_from: null` does
not reparse at all (the serializer omits the null, the reparse then misses
the required key). -/
theorem c2_counterexample :
    parseBlock c2frac = .ok c2fracNode ∧
    parseBlock (serializeNode c2fracNode) = .ok c2fracNode2 ∧
    nodeCreatedMicro c2fracNode = some 123000 ∧
    nodeCreatedMicro c2fracNode2 = some 0 ∧
    parseBlock c2sync = .ok c2syncNode ∧
    parseBlock (serializeNode c2syncNode) =
      .error (.validationError "synced_from") := by
  refine ⟨?_, ?_, rfl, rfl, ?_, ?_⟩
  · exact parseBlockF_correct 4 _ _ rfl
  · exact parseBlockF_correct 4 _ _ rfl
  · exact parseBlockF_correct 4 _ _ rfl
  · exact parseBlockF_correct 4 _ _ rfl

/-- C3: the spec says zero or several extra keys fail with
`AmbiguousVariantError`.  Amended statement: an empty type-less mapping
crashes with an unstructured `IndexError`, and any non-empty type-less
mapping is dispatched on its FIRST key — silently when that key is a
registry tag, with `UnknownVariantError` otherwise; no ambiguity error
exists in the code. -/
theorem c3_no_ambiguity_error :
    parseChildNodeJ (J.obj []) = .error .indexError ∧
    (∀ (k : String) (v : J) (rest : List (String × J)),
      jget ((k, v) :: rest) "type" = none → registryTags.contains k = false →
      parseChildNodeJ (J.obj ((k, v) :: rest)) = .error (.unknownVariant k)) := by
  constructor
  · exact (parseF_correct 2).1 _ _ rfl
  · intro k v rest hnt hk
    rw [parseChildNodeJ_step]
    have het : effTag ((k, v) :: rest) = .ok k := by
      unfold effTag hasKey
      rw [hnt]
      rfl
    rw [het]
    dsimp only
    rw [if_neg (by simp only [hk]; decide)]

theorem c3_no_ambiguity_error_witness :
    parseChildNodeJ (J.obj [("archived", J.bool true)]) =
      .error (.unknownVariant "archived") :=
  c3_no_ambiguity_error.2 "archived" (J.bool true) [] rfl rfl

/-- C3 counterexample: a type-less mapping with TWO extra keys is not
rejected as ambiguous — the first key silently wins. -/
theorem c3_counterexample :
    parseChildNodeJ c3two = .ok (.mk env0 (.paragraph (.arr []) "default" none)) :=
  (parseF_correct 8).1 _ _ rfl

/-- C4: every enumerated discriminator admits a minimal valid raw object
that parses to its variant — but the registry has 27 entries, not the 25
the spec counts.  The big conjunction parses `minRaw t` for every
registry tag `t` to the expected variant. -/
theorem c4_discriminator_coverage :
    registryTags.length = 27 ∧
    (parseBlock (minRaw "bookmark") = .ok (.mk env0 (minPayload "bookmark")) ∧
     parseBlock (minRaw "breadcrumb") = .ok (.mk env0 (minPayload "breadcrumb")) ∧
     parseBlock (minRaw "bulleted_list_item") =
       .ok (.mk env0 (minPayload "bulleted_list_item")) ∧
     parseBlock (minRaw "callout") = .ok (.mk env0 (minPayload "callout")) ∧
     parseBlock (minRaw "child_database") =
       .ok (.mk env0 (minPayload "child_database")) ∧
     parseBlock (minRaw "child_page") = .ok (.mk env0 (minPayload "child_page")) ∧
     parseBlock (minRaw "code") = .ok (.mk env0 (minPayload "code")) ∧
     parseBlock (minRaw "column_list") = .ok (.mk env0 (minPayload "column_list")) ∧
     parseBlock (minRaw "column") = .ok (.mk env0 (minPayload "column"))) ∧
    (parseBlock (minRaw "heading_1") = .ok (.mk env0 (minPayload "heading_1")) ∧
     parseBlock (minRaw "divider") = .ok (.mk env0 (minPayload "divider")) ∧
     parseBlock (minRaw "embed") = .ok (.mk env0 (minPayload "embed")) ∧
     parseBlock (minRaw "equation") = .ok (.mk env0 (minPayload "equation")) ∧
     parseBlock (minRaw "file") = .ok (.mk env0 (minPayload "file")) ∧
     parseBlock (minRaw "heading_2") = .ok (.mk env0 (minPayload "heading_2")) ∧
     parseBlock (minRaw "heading_3") = .ok (.mk env0 (minPayload "heading_3")) ∧
     parseBlock (minRaw "image") = .ok (.mk env0 (minPayload "image")) ∧
     parseBlock (minRaw "link_preview") =
       .ok (.mk env0 (minPayload "link_preview"))) ∧
    (parseBlock (minRaw "numbered_list_item") =
       .ok (.mk env0 (minPayload "numbered_list_item")) ∧
     parseBlock (minRaw "paragraph") = .ok (.mk env0 (minPayload "paragraph")) ∧
     parseBlock (minRaw "quote") = .ok (.mk env0 (minPayload "quote")) ∧
     parseBlock (minRaw "synced_block") =
       .ok (.mk env0 (minPayload "synced_block")) ∧
     parseBlock (minRaw "table") = .ok (.mk env0 (minPayload "table")) ∧
     parseBlock (minRaw "table_row") = .ok (.mk env0 (minPayload "table_row")) ∧
     parseBlock (minRaw "to_do") = .ok (.mk env0 (minPayload "to_do")) ∧
     parseBlock (minRaw "toggle") = .ok (.mk env0 (minPayload "toggle")) ∧
     parseBlock (minRaw "video") = .ok (.mk env0 (minPayload "video"))) :=
  ⟨rfl,
   ⟨parseBlockF_correct 4 _ _ rfl, parseBlockF_correct 4 _ _ rfl,
    parseBlockF_correct 4 _ _ rfl, parseBlockF_correct 4 _ _ rfl,
    parseBlockF_correct 4 _ _ rfl, parseBlockF_correct 4 _ _ rfl,
    parseBlockF_correct 4 _ _ rfl, parseBlockF_correct 4 _ _ rfl,
    parseBlockF_correct 4 _ _ rfl⟩,
   ⟨parseBlockF_correct 4 _ _ rfl, parseBlockF_correct 4 _ _ rfl,
    parseBlockF_correct 4 _ _ rfl, parseBlockF_correct 4 _ _ rfl,
    parseBlockF_correct 4 _ _ rfl, parseBlockF_correct 4 _ _ rfl,
    parseBlockF_correct 4 _ _ rfl, parseBlockF_correct 4 _ _ rfl,
    parseBlockF_correct 4 _ _ rfl⟩,
   ⟨parseBlockF_correct 4 _ _ rfl, parseBlockF_correct 4 _ _ rfl,
    parseBlockF_correct 4 _ _ rfl, parseBlockF_correct 4 _ _ rfl,
    parseBlockF_correct 4 _ _ rfl, parseBlockF_correct 4 _ _ rfl,
    parseBlockF_correct 4 _ _ rfl, parseBlockF_correct 4 _ _ rfl,
    parseBlockF_correct 4 _ _ rfl⟩⟩

/-- C4 counterexample: the registry enumerates 27 discriminators, not 25. -/
theorem c4_counterexample : registryTags.length = 27 ∧ ¬ registryTags.length = 25 := by
  exact ⟨rfl, by decide⟩

/-- C5: the payload attribute name equals the discriminator tag for every
variant EXCEPT `link_preview`, whose attribute (and serialized key) is
`link_to`.  Amended statement: equality holds for the other 26 tags. -/
theorem c5_payload_key :
    (∀ t, t ∈ registryTags → ¬ t = "link_preview" → payloadKey t = t) ∧
    payloadKey "link_preview" = "link_to" := by
  exact ⟨by decide, rfl⟩

theorem c5_payload_key_witness : payloadKey "paragraph" = "paragraph" :=
  c5_payload_key.1 "paragraph" (by decide) (by decide)

/-- C5 counterexample: serializing a `link_preview` node emits the payload
under `link_to`, not under the discriminator tag. -/
theorem c5_counterexample :
    ¬ payloadKey "link_preview" = "link_preview" ∧
    jget (serializedKvs c5lpNode) "link_preview" = none ∧
    jget (serializedKvs c5lpNode) "link_to" = some (J.str "u") ∧
    jget (serializedKvs c5lpNode) "type" = some (J.str "link_preview") := by
  exact ⟨by decide, rfl, rfl, rfl⟩

/-- C6: for every children list, every element is parsed as a node and
input order is preserved (the typed result is element-wise parse of the raw
list); for every payload mapping, an absent or `null` or empty `children`
field yields an absent or empty result and never an error; every variant
whose payload declares children (`paragraph`, `quote`, `toggle`,
`numbered_list_item`, `to_do`, `synced_block`) delegates to exactly these
children parsers; and the spec's 3-level tree parses in order. -/
theorem c6_recursive_children :
    (∀ (js : List J) (ns : List Node), parseChildList js = .ok ns →
      List.Forall₂ (fun j n => parseChildNodeJ j = .ok n) js ns) ∧
    (∀ pkvs : List (String × J),
      (jget pkvs "children" = none → parseChildrenInPkvs pkvs = .ok none) ∧
      (jget pkvs "children" = some J.null → parseChildrenInPkvs pkvs = .ok none) ∧
      (jget pkvs "children" = some (J.arr []) →
        parseChildrenInPkvs pkvs = .ok (some []))) ∧
    (∀ (pkvs : List (String × J)) (rt : J) (c : String),
      parseRichTextField "rich_text" (jget pkvs "rich_text") = .ok rt →
      parseColorField (jget pkvs "color") = .ok c →
      (jget pkvs "children" = none → parseTextChildren pkvs = .ok (rt, c, none)) ∧
      (jget pkvs "children" = some (J.arr []) →
        parseTextChildren pkvs = .ok (rt, c, some []))) ∧
    (∀ (pkvs : List (String × J)) (rt : J) (c : String) (ch : Option (List Node)),
      parseTextChildren pkvs = .ok (rt, c, ch) →
      parsePayloadValue "paragraph" (some (.obj pkvs)) = .ok (.paragraph rt c ch) ∧
      parsePayloadValue "quote" (some (.obj pkvs)) = .ok (.quote rt c ch) ∧
      parsePayloadValue "toggle" (some (.obj pkvs)) = .ok (.toggle rt c ch) ∧
      parsePayloadValue "numbered_list_item" (some (.obj pkvs)) =
        .ok (.numbered_list_item rt c ch)) ∧
    (∀ (pkvs : List (String × J)) (rt : J) (c : String) (ch : Option (List Node))
      (chk : Bool),
      parseTextChildren pkvs = .ok (rt, c, ch) →
      parseBoolField "checked" false (jget pkvs "checked") = .ok chk →
      parsePayloadValue "to_do" (some (.obj pkvs)) = .ok (.to_do rt chk c ch)) ∧
    (∀ (pkvs : List (String × J)) (sf : Option String) (ch : Option (List Node)),
      parseSyncedFrom (jget pkvs "synced_from") = .ok sf →
      parseChildrenInPkvs pkvs = .ok ch →
      parsePayloadValue "synced_block" (some (.obj pkvs)) =
        .ok (.synced_block sf ch)) ∧
    parseBlock c6raw = .ok c6tree ∧
    parseBlock c6noChildren = .ok (.mk env0 (.paragraph (.arr []) "default" none)) ∧
    parseBlock c6emptyChildren =
      .ok (.mk env0 (.paragraph (.arr []) "default" (some []))) := by
  refine ⟨?_, ?_, ?_, ?_, ?_, ?_, ?_, ?_, ?_⟩
  · intro js
    induction js with
    | nil =>
      intro ns h
      rw [parseChildList_nil] at h
      cases h
      exact .nil
    | cons j rest ih =>
      intro ns h
      rw [parseChildList_cons] at h
      rcases hn : parseChildNodeJ j with e | n <;> rw [hn] at h
      · cases h
      · dsimp only at h
        rcases hl : parseChildList rest with e | ns0 <;> rw [hl] at h
        · cases h
        · dsimp only at h
          cases h
          exact .cons hn (ih ns0 hl)
  · intro pkvs
    refine ⟨?_, ?_, ?_⟩
    · intro h
      rw [parseChildrenInPkvs_step, h]
    · intro h
      rw [parseChildrenInPkvs_step, h]
    · intro h
      rw [parseChildrenInPkvs_step, h]
      dsimp only
      rw [parseChildList_nil]
  · intro pkvs rt c hrt hc
    constructor
    · intro h
      rw [parseTextChildren_step, hrt, hc, h]
    · intro h
      rw [parseTextChildren_step, hrt, hc, h]
      dsimp only
      rw [parseChildList_nil]
  · intro pkvs rt c ch h
    refine ⟨?_, ?_, ?_, ?_⟩
    · rw [parsePayloadValue_step_paragraph, h]
    · rw [parsePayloadValue_step_quote, h]
    · rw [parsePayloadValue_step_toggle, h]
    · rw [parsePayloadValue_step_numbered, h]
  · intro pkvs rt c ch chk h hchk
    rw [parsePayloadValue_step_to_do, hchk]
    dsimp only
    rw [h]
  · intro pkvs sf ch hsf hch
    rw [parsePayloadValue_step_synced, hsf]
    dsimp only
    rw [hch]
  · exact parseBlockF_correct 16 _ _ rfl
  · exact parseBlockF_correct 4 _ _ rfl
  · exact parseBlockF_correct 4 _ _ rfl

theorem c6_recursive_children_witness :
    List.Forall₂ (fun j n => parseChildNodeJ j = .ok n)
      [J.obj [("divider", J.obj [])], J.obj [("bulleted_list_item", J.arr [])]]
      [.mk env0 (.divider []), .mk env0 (.bulleted_list_item (.arr []))] :=
  c6_recursive_children.1
    [J.obj [("divider", J.obj [])], J.obj [("bulleted_list_item", J.arr [])]]
    [.mk env0 (.divider []), .mk env0 (.bulleted_list_item (.arr []))]
    (parseChildListF_correct 4
      [J.obj [("divider", J.obj [])], J.obj [("bulleted_list_item", J.arr [])]]
      (.ok [.mk env0 (.divider []), .mk env0 (.bulleted_list_item (.arr []))]) rfl)

/-- C7: the spec says the caller's mapping is never modified; the
`insert_type` validator in fact assigns `values["type"]` in place.  Amended
statement: a mapping that already has `type` is left unchanged, a non-empty
one without it gains `("type", first key)` at the end, and the empty one is
unchanged (the validator raises before assigning). -/
theorem c7_insert_type_mutates :
    (∀ values, hasKey values "type" = true → dictAfterInsertType values = values) ∧
    (∀ (k : String) (v : J) (rest : List (String × J)),
      hasKey ((k, v) :: rest) "type" = false →
      dictAfterInsertType ((k, v) :: rest) =
        (k, v) :: rest ++ [("type", J.str k)]) ∧
    dictAfterInsertType [] = [] := by
  refine ⟨?_, ?_, rfl⟩
  · intro values h
    simp [dictAfterInsertType, insert_type, h]
  · intro k v rest h
    simp [dictAfterInsertType, insert_type, h]

theorem c7_insert_type_mutates_witness :
    dictAfterInsertType [("paragraph", J.obj [("rich_text", J.arr [])])] =
      [("paragraph", J.obj [("rich_text", J.arr [])]),
       ("type", J.str "paragraph")] :=
  c7_insert_type_mutates.2.1 "paragraph" (J.obj [("rich_text", J.arr [])]) [] rfl

/-- C7 counterexample: converting a type-less mapping leaves the caller's
dict with an extra `type` entry — it is not unchanged. -/
theorem c7_counterexample :
    ¬ dictAfterInsertType [("paragraph", J.obj [])] = [("paragraph", J.obj [])] ∧
    dictAfterInsertType [("paragraph", J.obj [])] =
      [("paragraph", J.obj []), ("type", J.str "paragraph")] :=
  ⟨fun h => absurd (congrArg List.length h) (by decide), rfl⟩

/-- C8: `id` and `request_id` accept exactly the 32-hex-optionally-hyphenated
pattern: accepted values always match it, `"not-a-uuid"` is rejected, and
both hyphenated and unhyphenated well-formed values are accepted. -/
theorem c8_id_pattern :
    (∀ s v, parsePatternField "id" (some (J.str s)) = .ok (some v) →
      matchesUUID v = true ∧ v = s) ∧
    parsePatternField "id" (some (J.str "not-a-uuid")) =
      .error (.validationError "id") ∧
    parsePatternField "request_id" (some (J.str "not-a-uuid")) =
      .error (.validationError "request_id") ∧
    parsePatternField "id" (some (J.str "2f26ee68-df30-4251-aad4-8ddc420cba3d")) =
      .ok (some "2f26ee68-df30-4251-aad4-8ddc420cba3d") ∧
    parsePatternField "id" (some (J.str "2f26ee68df304251aad48ddc420cba3d")) =
      .ok (some "2f26ee68df304251aad48ddc420cba3d") := by
  refine ⟨?_, by rfl, by rfl, by rfl, by rfl⟩
  intro s v h
  unfold parsePatternField at h
  dsimp only at h
  by_cases hm : matchesUUID s = true
  · rw [if_pos hm] at h
    cases h
    exact ⟨hm, rfl⟩
  · rw [if_neg hm] at h
    cases h

theorem c8_id_pattern_witness :
    matchesUUID "2f26ee68-df30-4251-aad4-8ddc420cba3d" = true :=
  (c8_id_pattern.1 "2f26ee68-df30-4251-aad4-8ddc420cba3d"
    "2f26ee68-df30-4251-aad4-8ddc420cba3d" (by rfl)).1

/-- C9: serialization renders timestamps at second precision (the
microsecond field never influences the output) with a literal `Z` for zero
offset; the two spec inputs serialize to the identical canonical string,
also through a whole node's `created_time`. -/
theorem c9_timestamp_canonicalization :
    (∀ (y mo d h mi s micro : Nat) (off : Option Int),
      dtFormat ⟨y, mo, d, h, mi, s, micro, off⟩ =
        dtFormat ⟨y, mo, d, h, mi, s, 0, off⟩) ∧
    (dtParse "2021-05-14T10:00:00.000Z").map dtFormat =
      some "2021-05-14T10:00:00Z" ∧
    (dtParse "2021-05-14T10:00:00Z").map dtFormat =
      some "2021-05-14T10:00:00Z" ∧
    parseBlock c9fracRaw = .ok c9fracNode ∧
    parseBlock c9plainRaw = .ok c9plainNode ∧
    jget (serializedKvs c9fracNode) "created_time" =
      some (J.str "2021-05-14T10:00:00Z") ∧
    jget (serializedKvs c9plainNode) "created_time" =
      some (J.str "2021-05-14T10:00:00Z") := by
  refine ⟨fun y mo d h mi s micro off => rfl, by rfl, by rfl, ?_, ?_, rfl, rfl⟩
  · exact parseBlockF_correct 4 _ _ rfl
  · exact parseBlockF_correct 4 _ _ rfl

theorem c9_timestamp_canonicalization_witness :
    dtFormat ⟨2021, 5, 14, 10, 0, 0, 123000, some 0⟩ =
      dtFormat ⟨2021, 5, 14, 10, 0, 0, 0, some 0⟩ :=
  c9_timestamp_canonicalization.1 2021 5 14 10 0 0 123000 (some 0)

/-- C10: the top-level adapter rejects every mapping without an explicit
`type` key (the discriminated union checks the tag before the
tag-inserting validator can run), while the child-block union accepts the
same tag-less shape. -/
theorem c10_top_level_needs_type :
    (∀ kvs, jget kvs "type" = none →
      parseBlock (J.obj kvs) = .error .unionTagNotFound) ∧
    parseChildNodeJ (J.obj [("toggle", J.obj [("rich_text", J.arr [])])]) =
      .ok (.mk env0 (.toggle (.arr []) "default" none)) := by
  constructor
  · intro kvs h
    unfold parseBlock
    dsimp only
    rw [if_neg (by simp [hasKey, h])]
  · exact (parseF_correct 8).1 _ _ rfl

theorem c10_top_level_needs_type_witness :
    parseBlock (J.obj [("toggle", J.obj [("rich_text", J.arr [])])]) =
      .error .unionTagNotFound :=
  c10_top_level_needs_type.1 [("toggle", J.obj [("rich_text", J.arr [])])] rfl

end NotionData
